import Mathlib

/-!
# Verification of the price-change / churn simulation core

Shallow embedding of the estimation core of the `price-change-simulation`
repository: the price simulation engine (`simulate`), the price optimization
sweep (`findOptimalPrice`) and the churn lever simulation engine
(`simulateChurn`), together with the shared numeric utilities (`clamp`,
`smoothstep`, the seeded-RNG-free data model).

Modelling choices:
* JavaScript numbers are modelled as exact rationals (`ℚ`).
* `Math.exp` is transcendental, hence not expressible in `ℚ`; it is threaded
  through the price engine as an explicit function parameter `exp : ℚ → ℚ`.
  Theorems quantify over this parameter whenever the stated property does not
  depend on the values of `Math.exp`; closed evaluations instantiate it with
  an explicit rational stand-in.
* The module-level singleton `dataset` is threaded as an explicit `Dataset`
  argument to the three estimator entry points.
* `throw new Error(...)` is modelled by returning `none`.
-/

/- Batteries marks the core rational operations `@[irreducible]`, which blocks
`decide`-style evaluation of the estimators on concrete fixtures; restore the
default reducibility locally so closed facts can be settled by evaluation. -/
attribute [local semireducible] Rat.ofScientific Rat.mul Rat.inv Rat.add Rat.sub

set_option maxRecDepth 4000000

namespace PriceSim

/-- `clamp` from `src/lib/utils.ts`:
`Math.max(min, Math.min(max, value))`. -/
def clamp (value mn mx : ℚ) : ℚ :=
  max mn (min mx value)

/-- `SAFE_INCREASE_PCT`: price increases up to +25% are "normal"; no shock. -/
def SAFE_INCREASE_PCT : ℚ := 0.25

/-- `SHOCK_RAMP_PCT`: how quickly shock ramps after threshold. -/
def SHOCK_RAMP_PCT : ℚ := 0.15

/-- `MAX_CHURN_90D`: absolute ceiling for 90-day churn under extreme shock. -/
def MAX_CHURN_90D : ℚ := 0.90

/-- Smoothstep function for smooth interpolation (0 at x=0, 1 at x=1). -/
def smoothstep (x : ℚ) : ℚ :=
  let t := clamp x 0 1
  t * t * (3 - 2 * t)

/-! ## Data model (`src/data/types.ts`) -/

inductive PlanInterval
  | monthly
  | annual
deriving DecidableEq, BEq, Repr

structure Merchant where
  id : String
  name : String
  vertical : String
deriving DecidableEq, Repr

structure Plan where
  id : String
  merchantId : String
  name : String
  interval : PlanInterval
  currentPriceMonthly : ℚ
  activeSubs : ℚ
  baselineChurn90d : ℚ
  arpuAddonsMonthly : ℚ
  createdAt : Nat
  baselineCancelRate90d : ℚ
  paymentFailureRate90d : ℚ
  baselineDunningRecoveryRate : ℚ
  baselinePauseAdoptionRate : ℚ
deriving DecidableEq, Repr

structure PriceChangeEvent where
  id : String
  merchantId : String
  planId : String
  effectiveDate : Nat
  oldPriceMonthly : ℚ
  newPriceMonthly : ℚ
  pctChange : ℚ
  churn90dTreatment : ℚ
  churn90dControl : ℚ
  notes : Option String
deriving DecidableEq, Repr

inductive InterventionType
  | none
  | survey
  | pause
  | incentive
deriving DecidableEq, BEq, Repr

inductive IncentiveStrength
  | none
  | light
  | medium
  | heavy
deriving DecidableEq, BEq, Repr

inductive CancellationOutcome
  | saved
  | canceled
deriving DecidableEq, BEq, Repr

structure CancellationEvent where
  id : String
  merchantId : String
  planId : String
  eventDate : Nat
  interventionType : InterventionType
  incentiveStrength : Option IncentiveStrength
  outcome : CancellationOutcome
  savedLifetimeDays : Option ℚ
deriving DecidableEq, Repr

structure PaymentFailureEvent where
  id : String
  merchantId : String
  planId : String
  eventDate : Nat
  retries : ℚ
  retryWindowDays : ℚ
  fallbackEnabled : Bool
  recovered : Bool
  recoveryDay : Option ℚ
deriving DecidableEq, Repr

structure PauseEvent where
  id : String
  merchantId : String
  planId : String
  eventDate : Nat
  pauseEnabled : Bool
  pauseCycles : ℚ
  resumed : Bool
  churnedWithin90d : Option Bool
deriving DecidableEq, Repr

structure Dataset where
  merchants : List Merchant
  plans : List Plan
  events : List PriceChangeEvent
  cancellationEvents : List CancellationEvent
  paymentFailureEvents : List PaymentFailureEvent
  pauseEvents : List PauseEvent
deriving DecidableEq, Repr

/-! ## Price simulation engine (`simulate`) -/

structure SimulationInput where
  merchantId : String
  planId : String
  newPriceMonthly : ℚ
  useGlobalBenchmarks : Bool
deriving DecidableEq, Repr

structure ComparableEvent where
  event : PriceChangeEvent
  weight : ℚ
  similarity : ℚ
  isGlobal : Bool
deriving DecidableEq, Repr

inductive Confidence
  | High
  | Med
  | Low
deriving DecidableEq, BEq, Repr

structure SimulationResult where
  inputs : SimulationInput
  evidenceCount : Nat
  confidence : Confidence
  baselineChurn90d : ℚ
  expectedChurn90d : ℚ
  churnLift : ℚ
  baselineMRR : ℚ
  newMRR : ℚ
  netMRRDelta : ℚ
  netARRDelta : ℚ
  rangeLow : ℚ
  rangeHigh : ℚ
  topComparableEvents : List ComparableEvent
  usedHeuristic : Bool
  appliedPriceShock : Option Bool
  priceShockWeight : Option ℚ
  priceShockNote : Option String
deriving DecidableEq, Repr

/-- `dataset.plans.find(p => p.id === planId)`. -/
def planFor (ds : Dataset) (planId : String) : Option Plan :=
  ds.plans.find? fun p => p.id == planId

/-- `pctChange = (input.newPriceMonthly - oldPrice) / oldPrice`. -/
def pctChangeOf (plan : Plan) (newPriceMonthly : ℚ) : ℚ :=
  (newPriceMonthly - plan.currentPriceMonthly) / plan.currentPriceMonthly

/-- The merchant evidence pool: events of the same merchant whose plan shares
the target plan's interval, narrowed to the exact plan when at least three
events share it. -/
def merchantPool (ds : Dataset) (input : SimulationInput) (plan : Plan) :
    List PriceChangeEvent :=
  let merchantEvents := ds.events.filter fun e =>
    e.merchantId == input.merchantId &&
      match planFor ds e.planId with
      | some eventPlan => eventPlan.interval == plan.interval
      | none => false
  let samePlanEvents := merchantEvents.filter fun e => e.planId == input.planId
  if samePlanEvents.length ≥ 3 then samePlanEvents else merchantEvents

/-- The global pool: events from other merchants sharing the billing interval,
collected only when `useGlobalBenchmarks` is enabled. -/
def globalPool (ds : Dataset) (input : SimulationInput) (plan : Plan) :
    List PriceChangeEvent :=
  if input.useGlobalBenchmarks then
    ds.events.filter fun e =>
      e.merchantId != input.merchantId &&
        match planFor ds e.planId with
        | some eventPlan => eventPlan.interval == plan.interval
        | none => false
  else []

/-- The combined candidate pool with similarity weights (`weightedEvents` in
the source, before sorting). -/
def comparableEventsOf (exp : ℚ → ℚ) (ds : Dataset) (input : SimulationInput)
    (plan : Plan) : List ComparableEvent :=
  let oldPrice := plan.currentPriceMonthly
  let pctChange := pctChangeOf plan input.newPriceMonthly
  let merchantEvents := merchantPool ds input plan
  let globalEvents := globalPool ds input plan
  let merchantCount := merchantEvents.length
  let globalCount := globalEvents.length
  let totalCount := merchantCount + globalCount
  let merchantWeight : ℚ :=
    if totalCount > 0 then (merchantCount : ℚ) / (totalCount : ℚ) else 1
  let globalWeight : ℚ :=
    if totalCount > 0 then (globalCount : ℚ) / (totalCount : ℚ) else 0
  let candidateEvents :=
    merchantEvents.map (fun e => (e, false)) ++ globalEvents.map (fun e => (e, true))
  candidateEvents.map fun pair =>
    let event := pair.1
    let isGlobal := pair.2
    let pctDiff := |event.pctChange - pctChange|
    let absPctChange := |pctChange|
    let absEventPctChange := |event.pctChange|
    let w1 : ℚ :=
      if absPctChange > 0.50 ∨ absEventPctChange > 0.50 then
        let relativeDiff := pctDiff / max (max absPctChange absEventPctChange) 0.10
        exp (-(relativeDiff * 5))
      else
        exp (-(pctDiff * 10))
    let w2 : ℚ :=
      if isGlobal then
        let priceDiff := |event.oldPriceMonthly - oldPrice|
        let priceBand := oldPrice * 0.30
        max 0 (1 - priceDiff / priceBand)
      else 1
    let similarity := w1 * w2
    let evidenceWeight := if isGlobal then globalWeight else merchantWeight
    { event := event, weight := similarity * evidenceWeight,
      similarity := similarity, isGlobal := isGlobal }

/-- Stable insertion of an element into a list relative to a Boolean
comparison: the element goes in front of the first entry it may precede.
Used to model the stable `Array.prototype.sort` of the JavaScript runtime
(structurally recursive so that concrete fixtures evaluate). -/
def insertSorted (le : α → α → Bool) (a : α) : List α → List α
  | [] => [a]
  | b :: bs => if le a b then a :: b :: bs else b :: insertSorted le a bs

/-- Stable insertion sort relative to a Boolean comparison. -/
def stableSortBy (le : α → α → Bool) : List α → List α
  | [] => []
  | a :: as => insertSorted le a (stableSortBy le as)

/-- `weightedEvents.sort((a, b) => b.weight - a.weight)`: the weighted pool
sorted by weight descending. -/
def sortedComparableEventsOf (exp : ℚ → ℚ) (ds : Dataset)
    (input : SimulationInput) (plan : Plan) : List ComparableEvent :=
  stableSortBy (fun a b => decide (b.weight ≤ a.weight))
    (comparableEventsOf exp ds input plan)

/-- `totalWeight`: sum of the weights of the weighted pool. -/
def totalWeightOf (exp : ℚ → ℚ) (ds : Dataset) (input : SimulationInput)
    (plan : Plan) : ℚ :=
  (sortedComparableEventsOf exp ds input plan).foldl
    (fun sum we => sum + we.weight) 0

/-- The weighted mean of the per-event churn lifts
`treatment − control`, normalized by the total weight. -/
def weightedMeanLiftOf (exp : ℚ → ℚ) (ds : Dataset) (input : SimulationInput)
    (plan : Plan) : ℚ :=
  (((sortedComparableEventsOf exp ds input plan).map fun we =>
      (we.event.churn90dTreatment - we.event.churn90dControl) * we.weight).foldl
    (fun sum wl => sum + wl) 0) / totalWeightOf exp ds input plan

/-- The weighted average historical percent-change magnitude of the pool. -/
def avgHistoricalAbsPctOf (exp : ℚ → ℚ) (ds : Dataset)
    (input : SimulationInput) (plan : Plan) : ℚ :=
  ((sortedComparableEventsOf exp ds input plan).foldl
    (fun sum we => sum + |we.event.pctChange| * we.weight) 0) /
    totalWeightOf exp ds input plan

/-- The quadratic extreme-change multiplier, applicable for |pctChange| > 50%. -/
def extremeMultiplierOf (pctChange : ℚ) : ℚ :=
  if |pctChange| > 0.50 then
    let excessChange := |pctChange| - 0.50
    1 + (excessChange / 0.50) * (excessChange / 0.50)
  else 1

/-- Dynamic clamp bound for the evidence-based branch. -/
def evidenceMaxLiftOf (pctChange : ℚ) : ℚ :=
  if pctChange > 0 then min 0.50 (0.15 + (|pctChange| - 0.25) * 0.70)
  else min 0.30 (0.15 + (|pctChange| - 0.25) * 0.30)

/-- The heuristic fallback churn lift for sparse evidence: linear base lift
scaled by pctChange/0.10 (+1.2pp per +10%, −0.6pp per −10%), multiplied by
the quadratic extreme multiplier and clamped to a magnitude-dependent cap. -/
def heuristicLiftOf (pctChange : ℚ) : ℚ :=
  if pctChange > 0 then
    clamp (0.012 * (pctChange / 0.10) * extremeMultiplierOf pctChange) 0
      (min 0.40 (0.06 + (|pctChange| - 0.10) * 0.20))
  else
    clamp (0.006 * (pctChange / 0.10) * extremeMultiplierOf pctChange)
      (-(min 0.20 (0.06 + (|pctChange| - 0.10) * 0.10))) 0

/-- The raw (pre-clamp) evidence-based churn lift: the weighted mean of the
per-event lifts, scaled up on extreme queries that exceed 1.5× the weighted
average historical magnitude; 0 when the total weight is not positive. -/
def evidenceRawLiftOf (exp : ℚ → ℚ) (ds : Dataset) (input : SimulationInput)
    (plan : Plan) : ℚ :=
  if totalWeightOf exp ds input plan > 0 then
    if |pctChangeOf plan input.newPriceMonthly| > 0.50 then
      if |pctChangeOf plan input.newPriceMonthly| >
          avgHistoricalAbsPctOf exp ds input plan * 1.5 ∧
          avgHistoricalAbsPctOf exp ds input plan > 0 then
        weightedMeanLiftOf exp ds input plan *
          (1 + max 0 ((|pctChangeOf plan input.newPriceMonthly| /
            avgHistoricalAbsPctOf exp ds input plan - 1.5) * 0.3))
      else weightedMeanLiftOf exp ds input plan
    else weightedMeanLiftOf exp ds input plan
  else 0

/-- The churn lift: heuristic fallback for sparse evidence (fewer than 5
weighted events), otherwise the evidence-based lift under the dynamic
clamp. -/
def churnLiftOf (exp : ℚ → ℚ) (ds : Dataset) (input : SimulationInput)
    (plan : Plan) : ℚ :=
  if (sortedComparableEventsOf exp ds input plan).length < 5 then
    heuristicLiftOf (pctChangeOf plan input.newPriceMonthly)
  else
    clamp (evidenceRawLiftOf exp ds input plan)
      (-(evidenceMaxLiftOf (pctChangeOf plan input.newPriceMonthly)))
      (evidenceMaxLiftOf (pctChangeOf plan input.newPriceMonthly))

/-- Data-driven expected churn: baseline plus lift, clamped to [0, 0.5]. -/
def dataDrivenChurnOf (exp : ℚ → ℚ) (ds : Dataset) (input : SimulationInput)
    (plan : Plan) : ℚ :=
  clamp (plan.baselineChurn90d + churnLiftOf exp ds input plan) 0 0.5

/-- The smoothstep shock weight for an extreme price increase. -/
def priceShockWeightOf (pctChange : ℚ) : ℚ :=
  let excess := pctChange - SAFE_INCREASE_PCT
  let t := clamp (excess / (3 * SHOCK_RAMP_PCT)) 0 1
  smoothstep t

/-- The final expected churn: data-driven churn, blended toward
`MAX_CHURN_90D` when the price shock applies. -/
def expectedChurnOf (exp : ℚ → ℚ) (ds : Dataset) (input : SimulationInput)
    (plan : Plan) : ℚ :=
  if pctChangeOf plan input.newPriceMonthly > SAFE_INCREASE_PCT then
    clamp
      (dataDrivenChurnOf exp ds input plan +
        priceShockWeightOf (pctChangeOf plan input.newPriceMonthly) *
          (MAX_CHURN_90D - dataDrivenChurnOf exp ds input plan))
      0 MAX_CHURN_90D
  else dataDrivenChurnOf exp ds input plan

/-- `baselineMRR = subs·oldPrice + subs·addons`. -/
def baselineMRROf (plan : Plan) : ℚ :=
  plan.activeSubs * plan.currentPriceMonthly +
    plan.activeSubs * plan.arpuAddonsMonthly

/-- Retained subscribers after incremental churn. -/
def retainedSubsOf (exp : ℚ → ℚ) (ds : Dataset) (input : SimulationInput)
    (plan : Plan) : ℚ :=
  plan.activeSubs -
    plan.activeSubs *
      max (expectedChurnOf exp ds input plan - plan.baselineChurn90d) 0

/-- `newMRR = retained·newPrice + retained·addons`. -/
def newMRROf (exp : ℚ → ℚ) (ds : Dataset) (input : SimulationInput)
    (plan : Plan) : ℚ :=
  retainedSubsOf exp ds input plan * input.newPriceMonthly +
    retainedSubsOf exp ds input plan * plan.arpuAddonsMonthly

def netMRRDeltaOf (exp : ℚ → ℚ) (ds : Dataset) (input : SimulationInput)
    (plan : Plan) : ℚ :=
  newMRROf exp ds input plan - baselineMRROf plan

def netARRDeltaOf (exp : ℚ → ℚ) (ds : Dataset) (input : SimulationInput)
    (plan : Plan) : ℚ :=
  netMRRDeltaOf exp ds input plan * 12

/-- The (rangeLow, rangeHigh) pair: lift perturbed by ±0.02 in the
evidence-based case, else a ±20% heuristic band around the point estimate. -/
def rangePairOf (exp : ℚ → ℚ) (ds : Dataset) (input : SimulationInput)
    (plan : Plan) : ℚ × ℚ :=
  let evidenceCount := (sortedComparableEventsOf exp ds input plan).length
  let usedHeuristic := evidenceCount < 5
  let netARRDelta := netARRDeltaOf exp ds input plan
  if ¬ usedHeuristic ∧ evidenceCount ≥ 5 then
    let baselineChurn90d := plan.baselineChurn90d
    let churnLift := churnLiftOf exp ds input plan
    let liftRange : ℚ := 0.02
    let lowChurn0 := clamp (baselineChurn90d + churnLift - liftRange) 0 0.5
    let highChurn0 := clamp (baselineChurn90d + churnLift + liftRange) 0 0.5
    let pctChange := pctChangeOf plan input.newPriceMonthly
    let appliedPriceShock := pctChange > SAFE_INCREASE_PCT
    let priceShockWeight :=
      if appliedPriceShock then priceShockWeightOf pctChange else 0
    let lowChurn :=
      if appliedPriceShock then
        clamp (lowChurn0 + priceShockWeight * (MAX_CHURN_90D - lowChurn0)) 0
          MAX_CHURN_90D
      else lowChurn0
    let highChurn :=
      if appliedPriceShock then
        clamp (highChurn0 + priceShockWeight * (MAX_CHURN_90D - highChurn0)) 0
          MAX_CHURN_90D
      else highChurn0
    let lowRetained :=
      plan.activeSubs - plan.activeSubs * max (lowChurn - baselineChurn90d) 0
    let highRetained :=
      plan.activeSubs - plan.activeSubs * max (highChurn - baselineChurn90d) 0
    let lowMRR :=
      lowRetained * input.newPriceMonthly + lowRetained * plan.arpuAddonsMonthly
    let highMRR :=
      highRetained * input.newPriceMonthly + highRetained * plan.arpuAddonsMonthly
    ((lowMRR - baselineMRROf plan) * 12, (highMRR - baselineMRROf plan) * 12)
  else
    let range := |netARRDelta| * 0.20
    (netARRDelta - range, netARRDelta + range)

/-- Confidence from the evidence count: High at 25, Med at 10, else Low. -/
def confidenceOf (evidenceCount : Nat) : Confidence :=
  if evidenceCount ≥ 25 then Confidence.High
  else if evidenceCount ≥ 10 then Confidence.Med
  else Confidence.Low

/-- The fixed explanatory string attached when the price shock applies. -/
def priceShockMessage : String :=
  "Extreme price increase detected; applied non-linear price shock adjustment to prevent unrealistic retention assumptions."

/-- The result record built by `simulate` once the plan has been resolved. -/
def simulateResult (exp : ℚ → ℚ) (ds : Dataset) (input : SimulationInput)
    (plan : Plan) : SimulationResult :=
  let pctChange := pctChangeOf plan input.newPriceMonthly
  let weightedEvents := sortedComparableEventsOf exp ds input plan
  let evidenceCount := weightedEvents.length
  let appliedPriceShock := decide (pctChange > SAFE_INCREASE_PCT)
  { inputs := input
    evidenceCount := evidenceCount
    confidence := confidenceOf evidenceCount
    baselineChurn90d := plan.baselineChurn90d
    expectedChurn90d := expectedChurnOf exp ds input plan
    churnLift := churnLiftOf exp ds input plan
    baselineMRR := baselineMRROf plan
    newMRR := newMRROf exp ds input plan
    netMRRDelta := netMRRDeltaOf exp ds input plan
    netARRDelta := netARRDeltaOf exp ds input plan
    rangeLow := (rangePairOf exp ds input plan).1
    rangeHigh := (rangePairOf exp ds input plan).2
    topComparableEvents := weightedEvents.take 6
    usedHeuristic := decide (evidenceCount < 5)
    appliedPriceShock := if appliedPriceShock then some true else none
    priceShockWeight :=
      if appliedPriceShock then some (priceShockWeightOf pctChange) else none
    priceShockNote :=
      if appliedPriceShock then some priceShockMessage else none }

/-- `simulate(input)`: throws (returns `none`) exactly when the plan id does
not resolve in the dataset. -/
def simulate (exp : ℚ → ℚ) (ds : Dataset) (input : SimulationInput) :
    Option SimulationResult :=
  match planFor ds input.planId with
  | some plan => some (simulateResult exp ds input plan)
  | none => none

/-! ## Price optimization sweep (`findOptimalPrice`) -/

structure PriceOptimizationDataPoint where
  price : ℚ
  arrImpact : ℚ
  expectedChurn90d : ℚ
deriving DecidableEq, Repr, Inhabited

structure PriceOptimizationResult where
  dataPoints : List PriceOptimizationDataPoint
  optimalPrice : ℚ
  optimalARRImpact : ℚ
  optimalChurnPrice : ℚ
  optimalChurn90d : ℚ
  optimalChurnARRImpact : ℚ
  currentPrice : ℚ
  currentARRImpact : ℚ
  currentChurn90d : ℚ
deriving DecidableEq, Repr, Inhabited

/-- The mutable loop state of the sweep in `findOptimalPrice`. -/
structure SweepState where
  dataPoints : List PriceOptimizationDataPoint
  optimalPrice : ℚ
  optimalARRImpact : ℚ
  optimalChurnPrice : ℚ
  optimalChurn90d : ℚ
  optimalChurnARRImpact : ℚ
  currentARRImpact : ℚ
  currentChurn90d : ℚ
deriving DecidableEq, Repr

/-- The state update applied by a successful sweep iteration: record the data
point, track the ARR-optimal price, the constrained churn-optimal price, and
the current-price snapshot. -/
def sweepUpdate (currentPrice priceStep minAllowedPrice maxARRLoss : ℚ)
    (st : SweepState) (testPrice : ℚ) (result : SimulationResult) :
    SweepState :=
  let arrImpact := result.netARRDelta
  let st1 :=
    { st with dataPoints := st.dataPoints ++
        [{ price := testPrice, arrImpact := arrImpact,
           expectedChurn90d := result.expectedChurn90d }] }
  let st2 :=
    if arrImpact > st1.optimalARRImpact then
      { st1 with optimalARRImpact := arrImpact, optimalPrice := testPrice }
    else st1
  let st3 :=
    if arrImpact ≥ maxARRLoss ∧ testPrice ≥ minAllowedPrice then
      if result.expectedChurn90d < st2.optimalChurn90d then
        { st2 with optimalChurn90d := result.expectedChurn90d,
                   optimalChurnPrice := testPrice,
                   optimalChurnARRImpact := arrImpact }
      else st2
    else st2
  if |testPrice - currentPrice| < priceStep / 2 then
    { st3 with currentARRImpact := arrImpact,
               currentChurn90d := result.expectedChurn90d }
  else st3

/-- One iteration of the sweep loop of `findOptimalPrice`: skips non-positive
prices and prices below the 50% floor, then simulates; a simulation failure is
caught and the point skipped (the state is returned unchanged), mirroring the
`try/catch` of the source. -/
def sweepPoint (exp : ℚ → ℚ) (ds : Dataset) (merchantId planId : String)
    (useGlobalBenchmarks : Bool)
    (currentPrice minPrice priceStep minAllowedPrice maxARRLoss : ℚ)
    (st : SweepState) (i : Nat) : SweepState :=
  let testPrice := minPrice + priceStep * (i : ℚ)
  if testPrice ≤ 0 ∨ testPrice < minAllowedPrice then st
  else
    match simulate exp ds
        { merchantId := merchantId, planId := planId,
          newPriceMonthly := testPrice,
          useGlobalBenchmarks := useGlobalBenchmarks } with
    | none => st
    | some result =>
      sweepUpdate currentPrice priceStep minAllowedPrice maxARRLoss st
        testPrice result

/-- `baselineARR = (subs·price + subs·addons) · 12`, the annualized baseline
revenue used by the sweep constraints. -/
def baselineARROf (plan : Plan) : ℚ :=
  (plan.activeSubs * plan.currentPriceMonthly +
    plan.activeSubs * plan.arpuAddonsMonthly) * 12

/-- The post-loop current-price fallback of `findOptimalPrice`: when no swept
point landed within half a step of the current price (snapshot still 0), run
one direct simulation at the current price, and if even that fails reuse the
nearest recorded data point. -/
def currentSnapshotStep (exp : ℚ → ℚ) (ds : Dataset)
    (merchantId planId : String) (useGlobalBenchmarks : Bool)
    (currentPrice : ℚ) (st : SweepState) : SweepState :=
  if st.currentARRImpact = 0 ∧ st.dataPoints ≠ [] then
    match simulate exp ds
        { merchantId := merchantId, planId := planId,
          newPriceMonthly := currentPrice,
          useGlobalBenchmarks := useGlobalBenchmarks } with
    | some currentResult =>
      { st with currentARRImpact := currentResult.netARRDelta,
                currentChurn90d := currentResult.expectedChurn90d }
    | none =>
      match st.dataPoints with
      | [] => st
      | first :: rest =>
        let closest := rest.foldl
          (fun prev curr =>
            if |curr.price - currentPrice| < |prev.price - currentPrice| then
              curr
            else prev) first
        { st with currentARRImpact := closest.arrImpact,
                  currentChurn90d := closest.expectedChurn90d }
  else st

/-- The churn-constraint fallback of `findOptimalPrice`: when the constrained
tracker never moved off its initial pair, rescan the recorded points inside
the 50%–150% window for minimum churn regardless of the ARR constraint. -/
def churnFallbackStep (currentPrice baselineChurn90d : ℚ) (st : SweepState) :
    SweepState :=
  if st.optimalChurnPrice = currentPrice ∧
      st.optimalChurn90d = baselineChurn90d then
    st.dataPoints.foldl
      (fun acc point =>
        if point.price ≥ currentPrice * 0.5 ∧ point.price ≤ currentPrice * 1.5 then
          if point.expectedChurn90d < acc.optimalChurn90d then
            { acc with optimalChurn90d := point.expectedChurn90d,
                       optimalChurnPrice := point.price,
                       optimalChurnARRImpact := point.arrImpact }
          else acc
        else acc) st
  else st

/-- The initial loop state of the sweep. -/
def sweepInit (plan : Plan) : SweepState :=
  { dataPoints := [], optimalPrice := plan.currentPriceMonthly,
    optimalARRImpact := 0, optimalChurnPrice := plan.currentPriceMonthly,
    optimalChurn90d := plan.baselineChurn90d, optimalChurnARRImpact := 0,
    currentARRImpact := 0, currentChurn90d := plan.baselineChurn90d }

/-- The final loop state of `findOptimalPrice` once the plan has been
resolved: the loop over `steps+1` evenly spaced prices, then the
current-price fallback, then the churn-constraint fallback scan. -/
def sweepLoopResult (exp : ℚ → ℚ) (ds : Dataset)
    (merchantId planId : String) (useGlobalBenchmarks : Bool)
    (priceRange : ℚ × ℚ) (steps : Nat) (plan : Plan) : SweepState :=
  churnFallbackStep plan.currentPriceMonthly plan.baselineChurn90d
    (currentSnapshotStep exp ds merchantId planId useGlobalBenchmarks
      plan.currentPriceMonthly
      ((List.range (steps + 1)).foldl
        (sweepPoint exp ds merchantId planId useGlobalBenchmarks
          plan.currentPriceMonthly
          (plan.currentPriceMonthly * (1 + priceRange.1))
          ((plan.currentPriceMonthly * (1 + priceRange.2) -
            plan.currentPriceMonthly * (1 + priceRange.1)) / (steps : ℚ))
          (plan.currentPriceMonthly * 0.5)
          (baselineARROf plan * (-0.10)))
        (sweepInit plan)))

/-- The result record of `findOptimalPrice`: the final loop state with the
recorded data points sorted by price. -/
def findOptimalPriceResult (exp : ℚ → ℚ) (ds : Dataset)
    (merchantId planId : String) (useGlobalBenchmarks : Bool)
    (priceRange : ℚ × ℚ) (steps : Nat) (plan : Plan) :
    PriceOptimizationResult :=
  { dataPoints := stableSortBy (fun a b => decide (a.price ≤ b.price))
      (sweepLoopResult exp ds merchantId planId useGlobalBenchmarks priceRange
        steps plan).dataPoints
    optimalPrice := (sweepLoopResult exp ds merchantId planId
      useGlobalBenchmarks priceRange steps plan).optimalPrice
    optimalARRImpact := (sweepLoopResult exp ds merchantId planId
      useGlobalBenchmarks priceRange steps plan).optimalARRImpact
    optimalChurnPrice := (sweepLoopResult exp ds merchantId planId
      useGlobalBenchmarks priceRange steps plan).optimalChurnPrice
    optimalChurn90d := (sweepLoopResult exp ds merchantId planId
      useGlobalBenchmarks priceRange steps plan).optimalChurn90d
    optimalChurnARRImpact := (sweepLoopResult exp ds merchantId planId
      useGlobalBenchmarks priceRange steps plan).optimalChurnARRImpact
    currentPrice := plan.currentPriceMonthly
    currentARRImpact := (sweepLoopResult exp ds merchantId planId
      useGlobalBenchmarks priceRange steps plan).currentARRImpact
    currentChurn90d := (sweepLoopResult exp ds merchantId planId
      useGlobalBenchmarks priceRange steps plan).currentChurn90d }

/-- `findOptimalPrice`: throws (returns `none`) exactly when the plan id does
not resolve; otherwise runs the sweep. The source defaults are
`priceRange = [-0.5, 1.0]` and `steps = 50`. -/
def findOptimalPrice (exp : ℚ → ℚ) (ds : Dataset)
    (merchantId planId : String) (useGlobalBenchmarks : Bool)
    (priceRange : ℚ × ℚ) (steps : Nat) : Option PriceOptimizationResult :=
  match planFor ds planId with
  | some plan =>
    some (findOptimalPriceResult exp ds merchantId planId useGlobalBenchmarks
      priceRange steps plan)
  | none => none

/-! ## Churn lever simulation engine (`simulateChurn`) -/

structure LeverA where
  type : InterventionType
  incentiveStrength : Option IncentiveStrength
deriving DecidableEq, Repr

structure LeverB where
  retries : ℚ
  retryWindowDays : ℚ
  fallbackEnabled : Bool
deriving DecidableEq, Repr

structure LeverC where
  pauseEnabled : Bool
  maxPauseCycles : ℚ
deriving DecidableEq, Repr

structure ChurnSimulationInput where
  merchantId : String
  planId : String
  leverA : LeverA
  leverB : LeverB
  leverC : LeverC
deriving DecidableEq, Repr

structure EvidenceCounts where
  comparableCancellationEvents : Nat
  comparablePaymentEvents : Nat
  comparablePauseEvents : Nat
  merchantCancellationEvents : Nat
  merchantPaymentEvents : Nat
  merchantPauseEvents : Nat
  globalCancellationEvents : Int
  globalPaymentEvents : Int
  globalPauseEvents : Int
deriving DecidableEq, Repr

structure ChurnSimulationResult where
  recoveredARR : ℚ
  recoveredMRR : ℚ
  savedSubs : ℚ
  churnReductionPp : ℚ
  confidence : Confidence
  warnings : List String
  evidence : EvidenceCounts
  rangeLow : ℚ
  rangeHigh : ℚ
  fatigueFactor : ℚ
deriving DecidableEq, Repr

/-- Merchant-specific cancellation events (same merchant, same plan). -/
def merchantCancellationPool (ds : Dataset) (input : ChurnSimulationInput) :
    List CancellationEvent :=
  ds.cancellationEvents.filter fun e =>
    e.merchantId == input.merchantId && e.planId == input.planId

/-- Global cancellation events (other merchants, same plan). -/
def globalCancellationPool (ds : Dataset) (input : ChurnSimulationInput) :
    List CancellationEvent :=
  ds.cancellationEvents.filter fun e =>
    e.merchantId != input.merchantId && e.planId == input.planId

/-- Combined merchant + global cancellation pool (global data always used). -/
def cancellationPool (ds : Dataset) (input : ChurnSimulationInput) :
    List CancellationEvent :=
  merchantCancellationPool ds input ++ globalCancellationPool ds input

def merchantPaymentPool (ds : Dataset) (input : ChurnSimulationInput) :
    List PaymentFailureEvent :=
  ds.paymentFailureEvents.filter fun e =>
    e.merchantId == input.merchantId && e.planId == input.planId

def globalPaymentPool (ds : Dataset) (input : ChurnSimulationInput) :
    List PaymentFailureEvent :=
  ds.paymentFailureEvents.filter fun e =>
    e.merchantId != input.merchantId && e.planId == input.planId

def paymentPool (ds : Dataset) (input : ChurnSimulationInput) :
    List PaymentFailureEvent :=
  merchantPaymentPool ds input ++ globalPaymentPool ds input

def merchantPausePool (ds : Dataset) (input : ChurnSimulationInput) :
    List PauseEvent :=
  ds.pauseEvents.filter fun e =>
    e.merchantId == input.merchantId && e.planId == input.planId

def globalPausePool (ds : Dataset) (input : ChurnSimulationInput) :
    List PauseEvent :=
  ds.pauseEvents.filter fun e =>
    e.merchantId != input.merchantId && e.planId == input.planId

def pausePool (ds : Dataset) (input : ChurnSimulationInput) : List PauseEvent :=
  merchantPausePool ds input ++ globalPausePool ds input

/-- Whether a cancellation event matches the configured lever A (exact
intervention type; additionally exact incentive strength when the type is
`incentive`). -/
def matchesLeverA (input : ChurnSimulationInput) (e : CancellationEvent) :
    Bool :=
  if input.leverA.type == InterventionType.incentive then
    e.interventionType == input.leverA.type &&
      e.incentiveStrength == input.leverA.incentiveStrength
  else
    e.interventionType == input.leverA.type

/-- Whether a payment event matches the configured lever B exactly. -/
def matchesLeverB (input : ChurnSimulationInput) (e : PaymentFailureEvent) :
    Bool :=
  decide (e.retries = input.leverB.retries) &&
    decide (e.retryWindowDays = input.leverB.retryWindowDays) &&
    e.fallbackEnabled == input.leverB.fallbackEnabled

/-- Whether a pause event matches the configured lever C (pause available and
cycles within the configured maximum). -/
def matchesLeverC (input : ChurnSimulationInput) (e : PauseEvent) : Bool :=
  e.pauseEnabled && decide (e.pauseCycles ≤ input.leverC.maxPauseCycles)

/-- `expectedCancels = activeSubs · baselineCancelRate90d`. -/
def expectedCancelsOf (plan : Plan) : ℚ :=
  plan.activeSubs * plan.baselineCancelRate90d

/-- `expectedDunningLosses = expectedPaymentFailures · (1 − recoveryRate)`. -/
def expectedDunningLossesOf (plan : Plan) : ℚ :=
  plan.activeSubs * plan.paymentFailureRate90d *
    (1 - plan.baselineDunningRecoveryRate)

/-- Empirical save rate of "none"-intervention events (5% fallback when no
such events exist). -/
def baselineNoneSaveRateOf (ds : Dataset) (input : ChurnSimulationInput) : ℚ :=
  let baselineNoneEvents := (cancellationPool ds input).filter fun e =>
    e.interventionType == InterventionType.none
  let baselineNoneSaved := (baselineNoneEvents.filter fun e =>
    e.outcome == CancellationOutcome.saved).length
  if baselineNoneEvents.length > 0 then
    (baselineNoneSaved : ℚ) / (baselineNoneEvents.length : ℚ)
  else 0.05

/-- Lever A incremental saves: empirical configured save rate versus the
"none" baseline, lift clamped to [−0.05, 0.35], applied to expected cancels. -/
def savedSubsA (ds : Dataset) (input : ChurnSimulationInput) (plan : Plan) :
    ℚ :=
  let matchingCancellationEvents :=
    (cancellationPool ds input).filter (matchesLeverA input)
  let configuredSaved := (matchingCancellationEvents.filter fun e =>
    e.outcome == CancellationOutcome.saved).length
  let configuredSaveRate :=
    if matchingCancellationEvents.length > 0 then
      (configuredSaved : ℚ) / (matchingCancellationEvents.length : ℚ)
    else baselineNoneSaveRateOf ds input
  let saveLiftA := configuredSaveRate - baselineNoneSaveRateOf ds input
  expectedCancelsOf plan * clamp saveLiftA (-0.05) 0.35

/-- Empirical baseline dunning recovery rate at (retries=3, window=7, no
fallback), defaulting to the plan's static rate. -/
def baselineRecoveryRateOf (ds : Dataset) (input : ChurnSimulationInput)
    (plan : Plan) : ℚ :=
  let baselinePaymentEvents := (paymentPool ds input).filter fun e =>
    decide (e.retries = 3) && decide (e.retryWindowDays = 7) && !e.fallbackEnabled
  let baselineRecovered :=
    (baselinePaymentEvents.filter fun e => e.recovered).length
  if baselinePaymentEvents.length > 0 then
    (baselineRecovered : ℚ) / (baselinePaymentEvents.length : ℚ)
  else plan.baselineDunningRecoveryRate

/-- Lever B incremental saves: empirical configured recovery rate versus the
baseline, lift clamped to [−0.10, 0.60], applied to expected dunning losses. -/
def savedSubsB (ds : Dataset) (input : ChurnSimulationInput) (plan : Plan) :
    ℚ :=
  let matchingPaymentEvents := (paymentPool ds input).filter (matchesLeverB input)
  let configuredRecovered :=
    (matchingPaymentEvents.filter fun e => e.recovered).length
  let configuredRecoveryRate :=
    if matchingPaymentEvents.length > 0 then
      (configuredRecovered : ℚ) / (matchingPaymentEvents.length : ℚ)
    else baselineRecoveryRateOf ds input plan
  let recoveryLiftB := configuredRecoveryRate - baselineRecoveryRateOf ds input plan
  expectedDunningLossesOf plan * clamp recoveryLiftB (-0.10) 0.60

/-- Lever C incremental saves: effective resume rate (resumed and not churned
within 90 days) against a hardcoded 0 baseline, lift clamped to
[−0.10, 0.50], applied to expected cancels scaled by the pause adoption
rate; 0 when pause is disabled. -/
def savedSubsC (ds : Dataset) (input : ChurnSimulationInput) (plan : Plan) :
    ℚ :=
  if input.leverC.pauseEnabled then
    let matchingPauseEvents := (pausePool ds input).filter (matchesLeverC input)
    let configuredResumedNotChurned := (matchingPauseEvents.filter fun e =>
      e.resumed && e.churnedWithin90d == some false).length
    let effectiveResumeRateConfigured :=
      if matchingPauseEvents.length > 0 then
        (configuredResumedNotChurned : ℚ) / (matchingPauseEvents.length : ℚ)
      else 0
    let effectiveResumeRateBaseline : ℚ := 0
    let pauseLiftC := effectiveResumeRateConfigured - effectiveResumeRateBaseline
    expectedCancelsOf plan * plan.baselinePauseAdoptionRate *
      clamp pauseLiftC (-0.10) 0.50
  else 0

/-- The additive fatigue penalty accumulated from aggressive lever settings. -/
def fatiguePenalty (input : ChurnSimulationInput) : ℚ :=
  (if input.leverA.type == InterventionType.incentive &&
      input.leverA.incentiveStrength == some IncentiveStrength.heavy then
    (0.20 : ℚ)
  else 0) +
  (if input.leverB.retries ≥ 7 then (0.10 : ℚ) else 0) +
  (if input.leverB.retryWindowDays ≥ 21 then (0.10 : ℚ) else 0) +
  (if input.leverB.fallbackEnabled then (0.05 : ℚ) else 0) +
  (if input.leverC.maxPauseCycles ≥ 4 then (0.10 : ℚ) else 0)

/-- The fatigue factor: accumulated penalty clamped to [0, 0.50]. -/
def fatigueFactorOf (input : ChurnSimulationInput) : ℚ :=
  clamp (fatiguePenalty input) 0 0.50

/-- `effectiveSavedSubs = (A + B + C) · (1 − fatigue)`. -/
def effectiveSavedSubsOf (ds : Dataset) (input : ChurnSimulationInput)
    (plan : Plan) : ℚ :=
  (savedSubsA ds input plan + savedSubsB ds input plan + savedSubsC ds input plan) *
    (1 - fatigueFactorOf input)

def recoveredMRROf (ds : Dataset) (input : ChurnSimulationInput) (plan : Plan) :
    ℚ :=
  effectiveSavedSubsOf ds input plan *
    (plan.currentPriceMonthly + plan.arpuAddonsMonthly)

def recoveredARROf (ds : Dataset) (input : ChurnSimulationInput) (plan : Plan) :
    ℚ :=
  recoveredMRROf ds input plan * 12

/-- Total comparable events: matching cancellation + payment + pause events
across the combined pools (pause counted only when enabled). -/
def totalComparableEventsOf (ds : Dataset) (input : ChurnSimulationInput) :
    Nat :=
  ((cancellationPool ds input).filter (matchesLeverA input)).length +
    ((paymentPool ds input).filter (matchesLeverB input)).length +
    (if input.leverC.pauseEnabled then
      ((pausePool ds input).filter (matchesLeverC input)).length
    else 0)

/-- Confidence for the churn lever engine: High at 100 comparables, Med at 30,
else Low. -/
def churnConfidenceOf (totalComparableEvents : Nat) : Confidence :=
  if totalComparableEvents ≥ 100 then Confidence.High
  else if totalComparableEvents ≥ 30 then Confidence.Med
  else Confidence.Low

/-- Range multiplier by confidence: ±15% (High), ±30% (Med), ±50% (Low). -/
def rangeMultiplierOf (confidence : Confidence) : ℚ :=
  match confidence with
  | Confidence.High => 0.15
  | Confidence.Med => 0.30
  | Confidence.Low => 0.50

/-- Churn reduction in percentage points (0 when there is no expected churn). -/
def churnReductionPpOf (ds : Dataset) (input : ChurnSimulationInput)
    (plan : Plan) : ℚ :=
  let totalExpectedChurn := expectedCancelsOf plan + expectedDunningLossesOf plan
  if totalExpectedChurn > 0 then
    effectiveSavedSubsOf ds input plan / totalExpectedChurn *
      plan.baselineChurn90d * 100
  else 0

/-- The fixed cautionary message emitted for aggressive configurations. -/
def aggressiveMessage : String :=
  "This configuration is unusually aggressive; estimated recovery may be overstated and could introduce customer experience risk."

/-- The warning list: the cautionary message when more than 30% of addressable
losses are saved, or when the configuration matches the aggressive predicate;
emitted at most once. -/
def warningsOf (ds : Dataset) (input : ChurnSimulationInput) (plan : Plan) :
    List String :=
  let totalExpectedChurn := expectedCancelsOf plan + expectedDunningLossesOf plan
  let pctSavedSubs :=
    if totalExpectedChurn > 0 then
      effectiveSavedSubsOf ds input plan / totalExpectedChurn
    else 0
  let warnings0 : List String :=
    if pctSavedSubs > 0.30 then [aggressiveMessage] else []
  let isAggressive :=
    (input.leverA.type == InterventionType.incentive &&
      input.leverA.incentiveStrength == some IncentiveStrength.heavy) ||
    decide (input.leverB.retries ≥ 7) ||
    decide (input.leverB.retryWindowDays ≥ 25) ||
    decide (input.leverC.maxPauseCycles ≥ 5)
  if isAggressive && decide (warnings0.length = 0) then
    warnings0 ++ [aggressiveMessage]
  else warnings0

/-- The result record built by `simulateChurn` once the plan is resolved. -/
def simulateChurnResult (ds : Dataset) (input : ChurnSimulationInput)
    (plan : Plan) : ChurnSimulationResult :=
  let comparableCancellationEvents :=
    ((cancellationPool ds input).filter (matchesLeverA input)).length
  let comparablePaymentEvents :=
    ((paymentPool ds input).filter (matchesLeverB input)).length
  let comparablePauseEvents :=
    if input.leverC.pauseEnabled then
      ((pausePool ds input).filter (matchesLeverC input)).length
    else 0
  let merchantCancellationCount :=
    ((merchantCancellationPool ds input).filter (matchesLeverA input)).length
  let merchantPaymentCount :=
    ((merchantPaymentPool ds input).filter (matchesLeverB input)).length
  let merchantPauseCount :=
    if input.leverC.pauseEnabled then
      ((merchantPausePool ds input).filter (matchesLeverC input)).length
    else 0
  let confidence := churnConfidenceOf (totalComparableEventsOf ds input)
  let rangeMultiplier := rangeMultiplierOf confidence
  { recoveredARR := recoveredARROf ds input plan
    recoveredMRR := recoveredMRROf ds input plan
    savedSubs := effectiveSavedSubsOf ds input plan
    churnReductionPp := churnReductionPpOf ds input plan
    confidence := confidence
    warnings := warningsOf ds input plan
    evidence :=
      { comparableCancellationEvents := comparableCancellationEvents
        comparablePaymentEvents := comparablePaymentEvents
        comparablePauseEvents := comparablePauseEvents
        merchantCancellationEvents := merchantCancellationCount
        merchantPaymentEvents := merchantPaymentCount
        merchantPauseEvents := merchantPauseCount
        globalCancellationEvents :=
          (comparableCancellationEvents : Int) - (merchantCancellationCount : Int)
        globalPaymentEvents :=
          (comparablePaymentEvents : Int) - (merchantPaymentCount : Int)
        globalPauseEvents :=
          (comparablePauseEvents : Int) - (merchantPauseCount : Int) }
    rangeLow := recoveredARROf ds input plan * (1 - rangeMultiplier)
    rangeHigh := recoveredARROf ds input plan * (1 + rangeMultiplier)
    fatigueFactor := fatigueFactorOf input }

/-- `simulateChurn(input)`: throws (returns `none`) exactly when the plan id
does not resolve in the dataset. -/
def simulateChurn (ds : Dataset) (input : ChurnSimulationInput) :
    Option ChurnSimulationResult :=
  match planFor ds input.planId with
  | some plan => some (simulateChurnResult ds input plan)
  | none => none

/-! ## Concrete fixtures for closed evaluations

`Math.exp` cannot be represented exactly in `ℚ`; closed instantiations use
`expQ`, an explicit rational stand-in that, like the real exponential, is
positive and decreasing on the nonpositive arguments at which the engine
evaluates it.  Every fixture below is arranged so that the settled facts do
not depend on which positive decreasing stand-in is chosen: all events of a
fixture share one historical `pctChange`, hence all similarity weights are
equal and the weighted means are weight-independent. -/

def expQ (x : ℚ) : ℚ := 1 / (1 - x)

def merchantA : Merchant :=
  { id := "m-1", name := "StreamFlix", vertical := "Streaming Service" }

/-- A plan with no comparable events: the heuristic branch. -/
def planA : Plan :=
  { id := "plan-a", merchantId := "m-1", name := "Basic", interval := PlanInterval.monthly,
    currentPriceMonthly := 20, activeSubs := 100, baselineChurn90d := 1/20,
    arpuAddonsMonthly := 0, createdAt := 0, baselineCancelRate90d := 1/10,
    paymentFailureRate90d := 1/20, baselineDunningRecoveryRate := 2/5,
    baselinePauseAdoptionRate := 1/10 }

def dsHeuristic : Dataset :=
  { merchants := [merchantA], plans := [planA], events := [],
    cancellationEvents := [], paymentFailureEvents := [], pauseEvents := [] }

/-- Five same-plan events at +10% whose lifts are all −0.9. -/
def eventDrop (n : String) : PriceChangeEvent :=
  { id := n, merchantId := "m-1", planId := "plan-a", effectiveDate := 0,
    oldPriceMonthly := 20, newPriceMonthly := 22, pctChange := 1/10,
    churn90dTreatment := 0, churn90dControl := 9/10, notes := none }

def planDrop : Plan := { planA with baselineChurn90d := 7/20 }

def dsDrop : Dataset :=
  { dsHeuristic with
    plans := [planDrop]
    events := [eventDrop "e1", eventDrop "e2", eventDrop "e3", eventDrop "e4",
      eventDrop "e5"] }

/-- Five same-plan events at +20% whose lifts are all +0.1. -/
def eventMild (n : String) : PriceChangeEvent :=
  { id := n, merchantId := "m-1", planId := "plan-a", effectiveDate := 0,
    oldPriceMonthly := 20, newPriceMonthly := 24, pctChange := 1/5,
    churn90dTreatment := 3/20, churn90dControl := 1/20, notes := none }

def dsMild : Dataset :=
  { dsHeuristic with
    events := [eventMild "e1", eventMild "e2", eventMild "e3", eventMild "e4",
      eventMild "e5"] }

/-- Three deep-decrease events with lift −0.3 and two +10% events with lift
+0.4 around a plan with baseline churn 0.3. -/
def eventDeep (n : String) : PriceChangeEvent :=
  { id := n, merchantId := "m-1", planId := "plan-a", effectiveDate := 0,
    oldPriceMonthly := 20, newPriceMonthly := 10, pctChange := -(1/2),
    churn90dTreatment := 0, churn90dControl := 3/10, notes := none }

def eventUp (n : String) : PriceChangeEvent :=
  { id := n, merchantId := "m-1", planId := "plan-a", effectiveDate := 0,
    oldPriceMonthly := 20, newPriceMonthly := 22, pctChange := 1/10,
    churn90dTreatment := 2/5, churn90dControl := 0, notes := none }

def planSweep : Plan := { planA with baselineChurn90d := 3/10 }

def dsSweep : Dataset :=
  { dsHeuristic with
    plans := [planSweep]
    events := [eventDeep "e1", eventDeep "e2", eventDeep "e3", eventUp "e4",
      eventUp "e5"] }

/-- A plan with no active subscribers: every swept ARR impact is 0. -/
def planZero : Plan := { planA with activeSubs := 0 }

def dsZero : Dataset := { dsHeuristic with plans := [planZero] }

/-- Churn-lever fixture: a saved "none" event and a canceled "survey" event,
so a survey configuration underperforms baseline and recovers negative ARR. -/
def cancelNoneSaved : CancellationEvent :=
  { id := "c1", merchantId := "m-1", planId := "plan-a", eventDate := 0,
    interventionType := InterventionType.none, incentiveStrength := none,
    outcome := CancellationOutcome.saved, savedLifetimeDays := none }

def cancelSurveyLost : CancellationEvent :=
  { id := "c2", merchantId := "m-1", planId := "plan-a", eventDate := 0,
    interventionType := InterventionType.survey, incentiveStrength := none,
    outcome := CancellationOutcome.canceled, savedLifetimeDays := none }

def dsChurn : Dataset :=
  { dsHeuristic with
    cancellationEvents := [cancelNoneSaved, cancelSurveyLost] }

def churnInputSurvey : ChurnSimulationInput :=
  { merchantId := "m-1", planId := "plan-a",
    leverA := { type := InterventionType.survey, incentiveStrength := none },
    leverB := { retries := 3, retryWindowDays := 7, fallbackEnabled := false },
    leverC := { pauseEnabled := false, maxPauseCycles := 0 } }

/-! ## General lemmas about the numeric utilities -/

theorem le_clamp (x mn mx : ℚ) : mn ≤ clamp x mn mx :=
  le_max_left mn (min mx x)

theorem clamp_le (x mn mx : ℚ) (h : mn ≤ mx) : clamp x mn mx ≤ mx :=
  max_le h (min_le_left mx x)

theorem clamp_eq_self (x mn mx : ℚ) (h1 : mn ≤ x) (h2 : x ≤ mx) :
    clamp x mn mx = x := by
  unfold clamp
  rw [min_eq_right h2]
  exact max_eq_right h1

theorem clamp_mono (x y mn mx1 mx2 : ℚ) (hxy : x ≤ y) (hmx : mx1 ≤ mx2) :
    clamp x mn mx1 ≤ clamp y mn mx2 :=
  max_le_max le_rfl (min_le_min hmx hxy)

theorem smoothstep_nonneg (x : ℚ) : 0 ≤ smoothstep x := by
  show (0:ℚ) ≤ clamp x 0 1 * clamp x 0 1 * (3 - 2 * clamp x 0 1)
  have h1 : (0:ℚ) ≤ clamp x 0 1 := le_clamp x 0 1
  have h2 : clamp x 0 1 ≤ 1 := clamp_le x 0 1 (by norm_num)
  nlinarith [mul_self_nonneg (clamp x 0 1)]

theorem smoothstep_le_one (x : ℚ) : smoothstep x ≤ 1 := by
  show clamp x 0 1 * clamp x 0 1 * (3 - 2 * clamp x 0 1) ≤ 1
  have h1 : (0:ℚ) ≤ clamp x 0 1 := le_clamp x 0 1
  have h2 : clamp x 0 1 ≤ 1 := clamp_le x 0 1 (by norm_num)
  nlinarith [mul_nonneg (mul_self_nonneg (1 - clamp x 0 1)) h1]

theorem smoothstep_mono (x y : ℚ) (hxy : x ≤ y) :
    smoothstep x ≤ smoothstep y := by
  show clamp x 0 1 * clamp x 0 1 * (3 - 2 * clamp x 0 1) ≤
    clamp y 0 1 * clamp y 0 1 * (3 - 2 * clamp y 0 1)
  have h1 : (0:ℚ) ≤ clamp x 0 1 := le_clamp x 0 1
  have h2 : clamp x 0 1 ≤ 1 := clamp_le x 0 1 (by norm_num)
  have h3 : (0:ℚ) ≤ clamp y 0 1 := le_clamp y 0 1
  have h4 : clamp y 0 1 ≤ 1 := clamp_le y 0 1 (by norm_num)
  have h5 : clamp x 0 1 ≤ clamp y 0 1 := clamp_mono x y 0 1 1 hxy le_rfl
  nlinarith [mul_nonneg (sub_nonneg.2 h5) (sub_nonneg.2 h2),
    mul_nonneg (sub_nonneg.2 h5) (sub_nonneg.2 h4),
    mul_nonneg h1 h3, sq_nonneg (clamp x 0 1 + clamp y 0 1)]

/-- Unfolding equation for `simulate` when the plan resolves. -/
theorem simulate_eq_some (exp : ℚ → ℚ) (ds : Dataset) (input : SimulationInput)
    (plan : Plan) (hp : planFor ds input.planId = some plan) :
    simulate exp ds input = some (simulateResult exp ds input plan) := by
  unfold simulate
  rw [hp]

/-- Unfolding equation for `simulateChurn` when the plan resolves. -/
theorem simulateChurn_eq_some (ds : Dataset) (input : ChurnSimulationInput)
    (plan : Plan) (hp : planFor ds input.planId = some plan) :
    simulateChurn ds input = some (simulateChurnResult ds input plan) := by
  unfold simulateChurn
  rw [hp]

/-- Unfolding equation for `findOptimalPrice` when the plan resolves. -/
theorem findOptimalPrice_eq_some (exp : ℚ → ℚ) (ds : Dataset)
    (merchantId planId : String) (useGlobalBenchmarks : Bool)
    (priceRange : ℚ × ℚ) (steps : Nat) (plan : Plan)
    (hp : planFor ds planId = some plan) :
    findOptimalPrice exp ds merchantId planId useGlobalBenchmarks priceRange
      steps =
      some (findOptimalPriceResult exp ds merchantId planId
        useGlobalBenchmarks priceRange steps plan) := by
  unfold findOptimalPrice
  rw [hp]

/-- Every result of `simulate` comes from a resolved plan. -/
theorem simulate_some_elim (exp : ℚ → ℚ) (ds : Dataset)
    (input : SimulationInput) (r : SimulationResult)
    (hr : simulate exp ds input = some r) :
    ∃ plan, planFor ds input.planId = some plan ∧
      r = simulateResult exp ds input plan := by
  unfold simulate at hr
  cases hplan : planFor ds input.planId with
  | none => rw [hplan] at hr; exact absurd hr (by simp)
  | some plan =>
    rw [hplan] at hr
    exact ⟨plan, rfl, (Option.some.inj hr).symm⟩

/-- Every result of `simulateChurn` comes from a resolved plan. -/
theorem simulateChurn_some_elim (ds : Dataset) (input : ChurnSimulationInput)
    (r : ChurnSimulationResult) (hr : simulateChurn ds input = some r) :
    ∃ plan, planFor ds input.planId = some plan ∧
      r = simulateChurnResult ds input plan := by
  unfold simulateChurn at hr
  cases hplan : planFor ds input.planId with
  | none => rw [hplan] at hr; exact absurd hr (by simp)
  | some plan =>
    rw [hplan] at hr
    exact ⟨plan, rfl, (Option.some.inj hr).symm⟩

/-! ## Additional fixtures used by witnesses -/

def inputHeur24 : SimulationInput :=
  { merchantId := "m-1", planId := "plan-a", newPriceMonthly := 24,
    useGlobalBenchmarks := false }

def inputHeur20 : SimulationInput :=
  { merchantId := "m-1", planId := "plan-a", newPriceMonthly := 20,
    useGlobalBenchmarks := false }

def sweepState0 : SweepState :=
  { dataPoints := [], optimalPrice := 20, optimalARRImpact := 0,
    optimalChurnPrice := 20, optimalChurn90d := 1/20,
    optimalChurnARRImpact := 0, currentARRImpact := 0, currentChurn90d := 1/20 }

/-! ## Claim C1 -/

/-- **C1.** For every input whose `planId` resolves to a plan in the dataset,
the `expectedChurn90d` field returned by `simulate` lies in the closed
interval [0, 0.90]: the data-driven churn is clamped to [0, 0.5], and when
the price-shock blend toward the 0.90 ceiling applies the result is clamped
to [0, 0.90]. -/
theorem C1_expectedChurn_bounds (exp : ℚ → ℚ) (ds : Dataset)
    (input : SimulationInput) (r : SimulationResult)
    (hr : simulate exp ds input = some r) :
    0 ≤ r.expectedChurn90d ∧ r.expectedChurn90d ≤ 0.90 := by
  obtain ⟨plan, hp, rfl⟩ := simulate_some_elim exp ds input r hr
  show 0 ≤ expectedChurnOf exp ds input plan ∧
    expectedChurnOf exp ds input plan ≤ 0.90
  have hmax : MAX_CHURN_90D = 0.90 := rfl
  unfold expectedChurnOf
  split
  · exact ⟨le_clamp _ _ _, hmax ▸ clamp_le _ 0 MAX_CHURN_90D (by norm_num [MAX_CHURN_90D])⟩
  · unfold dataDrivenChurnOf
    refine ⟨le_clamp _ _ _, le_trans (clamp_le _ 0 0.5 (by norm_num)) (by norm_num)⟩

/-- Closed instantiation of `C1_expectedChurn_bounds` on a concrete fixture. -/
theorem C1_expectedChurn_bounds_witness :
    0 ≤ (simulateResult expQ dsHeuristic inputHeur24 planA).expectedChurn90d ∧
      (simulateResult expQ dsHeuristic inputHeur24 planA).expectedChurn90d ≤ 0.90 :=
  C1_expectedChurn_bounds expQ dsHeuristic inputHeur24 _ rfl

/-! ## Claim C2 -/

theorem insertSorted_length {α : Type _} (le : α → α → Bool) (a : α)
    (l : List α) : (insertSorted le a l).length = l.length + 1 := by
  induction l with
  | nil => rfl
  | cons b bs ih =>
    unfold insertSorted
    split
    · rfl
    · simp only [List.length_cons, ih]

theorem stableSortBy_length {α : Type _} (le : α → α → Bool) (l : List α) :
    (stableSortBy le l).length = l.length := by
  induction l with
  | nil => rfl
  | cons a as ih =>
    unfold stableSortBy
    rw [insertSorted_length, ih, List.length_cons]

theorem mem_insertSorted {α : Type _} (le : α → α → Bool) (a x : α)
    (l : List α) : x ∈ insertSorted le a l ↔ x = a ∨ x ∈ l := by
  induction l with
  | nil => simp [insertSorted]
  | cons b bs ih =>
    unfold insertSorted
    split
    · simp [List.mem_cons]
    · simp only [List.mem_cons, ih]
      tauto

theorem mem_stableSortBy {α : Type _} (le : α → α → Bool) (x : α)
    (l : List α) : x ∈ stableSortBy le l ↔ x ∈ l := by
  induction l with
  | nil => simp [stableSortBy]
  | cons a as ih =>
    unfold stableSortBy
    rw [mem_insertSorted, ih, List.mem_cons]

theorem comparableEventsOf_length (exp : ℚ → ℚ) (ds : Dataset)
    (input : SimulationInput) (plan : Plan) :
    (comparableEventsOf exp ds input plan).length =
      (merchantPool ds input plan).length + (globalPool ds input plan).length := by
  unfold comparableEventsOf
  simp

/-- The size of the weighted evidence pool does not depend on the queried
price: only the merchant id, plan id and benchmark flag shape the pools. -/
theorem evidenceCount_price_invariant (exp : ℚ → ℚ) (ds : Dataset)
    (m pid : String) (q1 q2 : ℚ) (ug : Bool) (plan : Plan) :
    (sortedComparableEventsOf exp ds ⟨m, pid, q1, ug⟩ plan).length =
      (sortedComparableEventsOf exp ds ⟨m, pid, q2, ug⟩ plan).length := by
  unfold sortedComparableEventsOf
  rw [stableSortBy_length, stableSortBy_length, comparableEventsOf_length,
    comparableEventsOf_length]
  rfl

/-- Monotonicity of the heuristic churn lift on price increases. -/
theorem heuristicLiftOf_mono (p1 p2 : ℚ) (h0 : 0 < p1) (h12 : p1 ≤ p2) :
    heuristicLiftOf p1 ≤ heuristicLiftOf p2 := by
  have h02 : (0:ℚ) < p2 := lt_of_lt_of_le h0 h12
  unfold heuristicLiftOf
  rw [if_pos h0, if_pos h02]
  apply clamp_mono
  · unfold extremeMultiplierOf
    rw [abs_of_pos h0, abs_of_pos h02]
    split_ifs with he1 he2 he2
    · dsimp only
      ring_nf
      nlinarith [mul_nonneg (sub_nonneg.2 h12) (sq_nonneg (p1 + p2 - 1)),
        mul_nonneg (sub_nonneg.2 h12) (sq_nonneg p1),
        mul_nonneg (sub_nonneg.2 h12) (sq_nonneg p2)]
    · exact absurd (lt_of_lt_of_le he1 h12) he2
    · dsimp only
      ring_nf
      nlinarith [mul_nonneg h02.le (sq_nonneg (p2 - 0.50))]
    · ring_nf
      nlinarith
  · rw [abs_of_pos h0, abs_of_pos h02]
    exact min_le_min le_rfl (by nlinarith)

/-- **C2 (amended).** For a fixed merchant, plan, dataset and benchmark flag
whose evidence pool is sparse (heuristic branch, fewer than 5 events), and
for any two new prices whose percent changes both exceed 0.25 with p1 ≤ p2,
the expected churn at p1 is at most the expected churn at p2. -/
theorem C2_heuristic_shock_monotone (exp : ℚ → ℚ) (ds : Dataset)
    (m pid : String) (ug : Bool) (q1 q2 : ℚ) (plan : Plan)
    (r1 r2 : SimulationResult)
    (hp : planFor ds pid = some plan)
    (hr1 : simulate exp ds ⟨m, pid, q1, ug⟩ = some r1)
    (hr2 : simulate exp ds ⟨m, pid, q2, ug⟩ = some r2)
    (hheur : r1.evidenceCount < 5)
    (h1 : 1/4 < pctChangeOf plan q1)
    (h12 : pctChangeOf plan q1 ≤ pctChangeOf plan q2) :
    r1.expectedChurn90d ≤ r2.expectedChurn90d := by
  rw [simulate_eq_some exp ds ⟨m, pid, q1, ug⟩ plan hp] at hr1
  rw [simulate_eq_some exp ds ⟨m, pid, q2, ug⟩ plan hp] at hr2
  obtain rfl := (Option.some.inj hr1).symm
  obtain rfl := (Option.some.inj hr2).symm
  have hlen1 : (sortedComparableEventsOf exp ds ⟨m, pid, q1, ug⟩ plan).length < 5 :=
    hheur
  have hlen2 : (sortedComparableEventsOf exp ds ⟨m, pid, q2, ug⟩ plan).length < 5 := by
    rw [← evidenceCount_price_invariant exp ds m pid q1 q2 ug plan]
    exact hheur
  have h01 : (0:ℚ) < pctChangeOf plan q1 := by linarith
  have h02 : (0:ℚ) < pctChangeOf plan q2 := by linarith
  have hlift : churnLiftOf exp ds ⟨m, pid, q1, ug⟩ plan ≤
      churnLiftOf exp ds ⟨m, pid, q2, ug⟩ plan := by
    unfold churnLiftOf
    rw [if_pos hlen1, if_pos hlen2]
    exact heuristicLiftOf_mono (pctChangeOf plan q1) (pctChangeOf plan q2) h01 h12
  have hd : dataDrivenChurnOf exp ds ⟨m, pid, q1, ug⟩ plan ≤
      dataDrivenChurnOf exp ds ⟨m, pid, q2, ug⟩ plan := by
    unfold dataDrivenChurnOf
    exact clamp_mono _ _ 0 _ _ (by linarith) le_rfl
  have hd25 : dataDrivenChurnOf exp ds ⟨m, pid, q2, ug⟩ plan ≤ 0.5 :=
    clamp_le _ _ _ (by norm_num)
  have hs : priceShockWeightOf (pctChangeOf plan q1) ≤
      priceShockWeightOf (pctChangeOf plan q2) := by
    show smoothstep (clamp ((pctChangeOf plan q1 - SAFE_INCREASE_PCT) /
        (3 * SHOCK_RAMP_PCT)) 0 1) ≤
      smoothstep (clamp ((pctChangeOf plan q2 - SAFE_INCREASE_PCT) /
        (3 * SHOCK_RAMP_PCT)) 0 1)
    apply smoothstep_mono
    refine clamp_mono _ _ _ _ _ ?_ le_rfl
    have h45 : (0:ℚ) < 3 * SHOCK_RAMP_PCT := by norm_num [SHOCK_RAMP_PCT]
    exact (div_le_div_iff_of_pos_right h45).2 (by linarith)
  have hs0 : 0 ≤ priceShockWeightOf (pctChangeOf plan q1) := smoothstep_nonneg _
  have hs11 : priceShockWeightOf (pctChangeOf plan q1) ≤ 1 := smoothstep_le_one _
  have hsafe : SAFE_INCREASE_PCT = 1/4 := by norm_num [SAFE_INCREASE_PCT]
  have e1 : expectedChurnOf exp ds ⟨m, pid, q1, ug⟩ plan =
      clamp (dataDrivenChurnOf exp ds ⟨m, pid, q1, ug⟩ plan +
        priceShockWeightOf (pctChangeOf plan q1) *
          (MAX_CHURN_90D - dataDrivenChurnOf exp ds ⟨m, pid, q1, ug⟩ plan)) 0
        MAX_CHURN_90D := by
    simp only [expectedChurnOf]
    rw [if_pos (show pctChangeOf plan q1 > SAFE_INCREASE_PCT from by
      rw [hsafe]; exact h1)]
  have e2 : expectedChurnOf exp ds ⟨m, pid, q2, ug⟩ plan =
      clamp (dataDrivenChurnOf exp ds ⟨m, pid, q2, ug⟩ plan +
        priceShockWeightOf (pctChangeOf plan q2) *
          (MAX_CHURN_90D - dataDrivenChurnOf exp ds ⟨m, pid, q2, ug⟩ plan)) 0
        MAX_CHURN_90D := by
    simp only [expectedChurnOf]
    rw [if_pos (show pctChangeOf plan q2 > SAFE_INCREASE_PCT from by
      rw [hsafe]; linarith)]
  show expectedChurnOf exp ds ⟨m, pid, q1, ug⟩ plan ≤
    expectedChurnOf exp ds ⟨m, pid, q2, ug⟩ plan
  rw [e1, e2]
  refine clamp_mono _ _ _ _ _ ?_ le_rfl
  have hM : MAX_CHURN_90D = 0.9 := rfl
  rw [hM]
  nlinarith [mul_nonneg (sub_nonneg.2 hd) (sub_nonneg.2 hs11),
    mul_nonneg (sub_nonneg.2 hs)
      (sub_nonneg.2 (le_trans hd25 (by norm_num : (0.5:ℚ) ≤ 0.9)))]

def inputHeur26 : SimulationInput :=
  { merchantId := "m-1", planId := "plan-a", newPriceMonthly := 26,
    useGlobalBenchmarks := false }

def inputHeur28 : SimulationInput :=
  { merchantId := "m-1", planId := "plan-a", newPriceMonthly := 28,
    useGlobalBenchmarks := false }

/-- Closed instantiation of `C2_heuristic_shock_monotone`: +30% versus +40%
on a plan without comparable events. -/
theorem C2_heuristic_shock_monotone_witness :
    (simulateResult expQ dsHeuristic ⟨"m-1", "plan-a", 26, false⟩ planA).expectedChurn90d ≤
      (simulateResult expQ dsHeuristic ⟨"m-1", "plan-a", 28, false⟩ planA).expectedChurn90d :=
  C2_heuristic_shock_monotone expQ dsHeuristic "m-1" "plan-a" false 26 28 planA
    _ _ rfl rfl rfl (by decide) (by decide) (by decide)

def inDrop1 : SimulationInput :=
  { merchantId := "m-1", planId := "plan-a", newPriceMonthly := 126/5,
    useGlobalBenchmarks := false }

def inDrop2 : SimulationInput :=
  { merchantId := "m-1", planId := "plan-a", newPriceMonthly := 26,
    useGlobalBenchmarks := false }

/-- **C2 counterexample.** With five comparable events at +10% whose observed
lifts are all −0.9 (evidence branch), the expected churn at a +26% change is
strictly greater than at a +30% change: the dynamic clamp bound widens with
the price change faster than the smoothstep shock ramps up, so expected
churn is not monotone above the 0.25 threshold. The weighted mean lift is
−0.9 for any positive similarity weighting, so this does not depend on the
rational stand-in chosen for `Math.exp`. -/
theorem C2_counterexample :
    planFor dsDrop "plan-a" = some planDrop ∧
      (1/4 : ℚ) < pctChangeOf planDrop inDrop1.newPriceMonthly ∧
      pctChangeOf planDrop inDrop1.newPriceMonthly ≤
        pctChangeOf planDrop inDrop2.newPriceMonthly ∧
      simulate expQ dsDrop inDrop1 =
        some (simulateResult expQ dsDrop inDrop1 planDrop) ∧
      simulate expQ dsDrop inDrop2 =
        some (simulateResult expQ dsDrop inDrop2 planDrop) ∧
      (simulateResult expQ dsDrop inDrop2 planDrop).expectedChurn90d <
        (simulateResult expQ dsDrop inDrop1 planDrop).expectedChurn90d :=
  ⟨rfl, by decide, by decide, rfl, rfl, by decide⟩

/-! ## Claim C3 -/

/-- **C3 (amended).** In the evidence-based branch (at least 5 events,
positive total weight), whenever additionally `|pctChange| > 0.50` and the
weighted-average historical magnitude is positive and exceeded by more than
a factor of 1.5, the weighted-mean churn lift is multiplied by
`1 + max 0 ((|pctChange|/avgHistorical − 1.5)·0.3)` before the final
clamp. -/
theorem C3_extreme_extrapolation (exp : ℚ → ℚ) (ds : Dataset)
    (input : SimulationInput) (plan : Plan) (r : SimulationResult)
    (hp : planFor ds input.planId = some plan)
    (hr : simulate exp ds input = some r)
    (hn : 5 ≤ r.evidenceCount)
    (hw : 0 < totalWeightOf exp ds input plan)
    (hx : 0.50 < |pctChangeOf plan input.newPriceMonthly|)
    (hratio : avgHistoricalAbsPctOf exp ds input plan * 1.5 <
      |pctChangeOf plan input.newPriceMonthly|)
    (havg : 0 < avgHistoricalAbsPctOf exp ds input plan) :
    r.churnLift =
      clamp
        (weightedMeanLiftOf exp ds input plan *
          (1 + max 0 ((|pctChangeOf plan input.newPriceMonthly| /
            avgHistoricalAbsPctOf exp ds input plan - 1.5) * 0.3)))
        (-(evidenceMaxLiftOf (pctChangeOf plan input.newPriceMonthly)))
        (evidenceMaxLiftOf (pctChangeOf plan input.newPriceMonthly)) := by
  rw [simulate_eq_some exp ds input plan hp] at hr
  obtain rfl := (Option.some.inj hr).symm
  have hn5 : ¬ (sortedComparableEventsOf exp ds input plan).length < 5 := by
    exact Nat.not_lt.2 hn
  show churnLiftOf exp ds input plan = _
  unfold churnLiftOf evidenceRawLiftOf
  rw [if_neg hn5, if_pos hw, if_pos hx, if_pos ⟨hratio, havg⟩]

def inMild28 : SimulationInput :=
  { merchantId := "m-1", planId := "plan-a", newPriceMonthly := 28,
    useGlobalBenchmarks := false }

def inMild32 : SimulationInput :=
  { merchantId := "m-1", planId := "plan-a", newPriceMonthly := 32,
    useGlobalBenchmarks := false }

/-- Closed instantiation of `C3_extreme_extrapolation`: five +20% events of
lift +0.1; at +60% the ratio is 3, so the returned lift is
0.1·(1+(3−1.5)·0.3) = 0.145. -/
theorem C3_extreme_extrapolation_witness :
    (simulateResult expQ dsMild inMild32 planA).churnLift =
      clamp
        (weightedMeanLiftOf expQ dsMild inMild32 planA *
          (1 + max 0 ((|pctChangeOf planA inMild32.newPriceMonthly| /
            avgHistoricalAbsPctOf expQ dsMild inMild32 planA - 1.5) * 0.3)))
        (-(evidenceMaxLiftOf (pctChangeOf planA inMild32.newPriceMonthly)))
        (evidenceMaxLiftOf (pctChangeOf planA inMild32.newPriceMonthly)) :=
  C3_extreme_extrapolation expQ dsMild inMild32 planA _ rfl rfl (by decide)
    (by decide) (by decide) (by decide) (by decide)

/-- **C3 counterexample.** At a +40% change against five +20% events the
query exceeds the weighted-average historical magnitude by a factor of 2
(> 1.5), yet the returned lift is the unscaled weighted mean 0.1, not the
claim's 0.1 · 1.15 = 0.115: the code also requires `|pctChange| > 0.50`
before applying the extrapolation, which the claim omits.  All five events
share one `pctChange`, so the weighted mean and average are independent of
the rational stand-in chosen for `Math.exp`. -/
theorem C3_counterexample :
    simulate expQ dsMild inMild28 =
        some (simulateResult expQ dsMild inMild28 planA) ∧
      5 ≤ (simulateResult expQ dsMild inMild28 planA).evidenceCount ∧
      0 < totalWeightOf expQ dsMild inMild28 planA ∧
      avgHistoricalAbsPctOf expQ dsMild inMild28 planA * 1.5 <
        |pctChangeOf planA inMild28.newPriceMonthly| ∧
      0 < avgHistoricalAbsPctOf expQ dsMild inMild28 planA ∧
      (simulateResult expQ dsMild inMild28 planA).churnLift ≠
        clamp
          (weightedMeanLiftOf expQ dsMild inMild28 planA *
            (1 + max 0 ((|pctChangeOf planA inMild28.newPriceMonthly| /
              avgHistoricalAbsPctOf expQ dsMild inMild28 planA - 1.5) * 0.3)))
          (-(evidenceMaxLiftOf (pctChangeOf planA inMild28.newPriceMonthly)))
          (evidenceMaxLiftOf (pctChangeOf planA inMild28.newPriceMonthly)) :=
  ⟨rfl, by decide, by decide, by decide, by decide, by decide⟩

/-! ## Claim C5 -/

/-- **C5.** Calling `simulate` with `newPriceMonthly` equal to the plan's
`currentPriceMonthly` (for a valid plan: positive price, baseline churn in
[0, 0.5]) yields `pctChange` exactly 0; when the combined evidence pool has
fewer than 5 events (heuristic branch) the churn lift is exactly 0, the
expected churn equals the baseline churn, and `netMRRDelta` and `netARRDelta`
are exactly 0. -/
theorem C5_zero_change_identity (exp : ℚ → ℚ) (ds : Dataset)
    (input : SimulationInput) (plan : Plan) (r : SimulationResult)
    (hp : planFor ds input.planId = some plan)
    (hr : simulate exp ds input = some r)
    (hprice : input.newPriceMonthly = plan.currentPriceMonthly)
    ( _hpos : 0 < plan.currentPriceMonthly)
    (hb0 : 0 ≤ plan.baselineChurn90d) (hb5 : plan.baselineChurn90d ≤ 0.5)
    (hcount : r.evidenceCount < 5) :
    pctChangeOf plan input.newPriceMonthly = 0 ∧ r.churnLift = 0 ∧
      r.expectedChurn90d = plan.baselineChurn90d ∧ r.netMRRDelta = 0 ∧
      r.netARRDelta = 0 := by
  rw [simulate_eq_some exp ds input plan hp] at hr
  obtain rfl := (Option.some.inj hr).symm
  have hpct : pctChangeOf plan input.newPriceMonthly = 0 := by
    unfold pctChangeOf
    rw [hprice, sub_self, zero_div]
  have hlen : (sortedComparableEventsOf exp ds input plan).length < 5 := hcount
  have hlift : churnLiftOf exp ds input plan = 0 := by
    unfold churnLiftOf
    rw [if_pos hlen, hpct]
    decide
  have hchurn : expectedChurnOf exp ds input plan = plan.baselineChurn90d := by
    unfold expectedChurnOf
    rw [hpct, if_neg (by norm_num [SAFE_INCREASE_PCT])]
    unfold dataDrivenChurnOf
    rw [hlift, add_zero]
    exact clamp_eq_self _ _ _ hb0 hb5
  have hmrr : netMRRDeltaOf exp ds input plan = 0 := by
    unfold netMRRDeltaOf newMRROf retainedSubsOf baselineMRROf
    rw [hchurn, sub_self, hprice]
    norm_num
  refine ⟨hpct, hlift, hchurn, hmrr, ?_⟩
  show netMRRDeltaOf exp ds input plan * 12 = 0
  rw [hmrr, zero_mul]

/-- Closed instantiation of `C5_zero_change_identity` on a concrete fixture:
a plan at price 20 with no comparable events, re-simulated at price 20. -/
theorem C5_zero_change_identity_witness :
    pctChangeOf planA inputHeur20.newPriceMonthly = 0 ∧
      (simulateResult expQ dsHeuristic inputHeur20 planA).churnLift = 0 ∧
      (simulateResult expQ dsHeuristic inputHeur20 planA).expectedChurn90d =
        planA.baselineChurn90d ∧
      (simulateResult expQ dsHeuristic inputHeur20 planA).netMRRDelta = 0 ∧
      (simulateResult expQ dsHeuristic inputHeur20 planA).netARRDelta = 0 :=
  C5_zero_change_identity expQ dsHeuristic inputHeur20 planA _ rfl rfl rfl
    (by decide) (by decide) (by decide) (by decide)

/-! ## Claim C6 -/

/-- **C6.** The returned confidence is exactly determined by the evidence
count with exact boundaries: count ≥ 25 gives High, 10 ≤ count ≤ 24 gives
Med, count ≤ 9 gives Low. -/
theorem C6_confidence_thresholds (exp : ℚ → ℚ) (ds : Dataset)
    (input : SimulationInput) (r : SimulationResult)
    (hr : simulate exp ds input = some r) :
    (r.confidence = Confidence.High ↔ 25 ≤ r.evidenceCount) ∧
      (r.confidence = Confidence.Med ↔
        10 ≤ r.evidenceCount ∧ r.evidenceCount ≤ 24) ∧
      (r.confidence = Confidence.Low ↔ r.evidenceCount ≤ 9) := by
  obtain ⟨plan, hp, rfl⟩ := simulate_some_elim exp ds input r hr
  have hc : (simulateResult exp ds input plan).confidence =
      confidenceOf (simulateResult exp ds input plan).evidenceCount := rfl
  rw [hc]
  generalize (simulateResult exp ds input plan).evidenceCount = n
  unfold confidenceOf
  split_ifs with h1 h2
  · exact ⟨iff_of_true rfl h1, iff_of_false (by decide) (by omega),
      iff_of_false (by decide) (by omega)⟩
  · exact ⟨iff_of_false (by decide) h1, iff_of_true rfl ⟨h2, by omega⟩,
      iff_of_false (by decide) (by omega)⟩
  · exact ⟨iff_of_false (by decide) h1, iff_of_false (by decide) (by omega),
      iff_of_true rfl (by omega)⟩

/-- Closed instantiation of `C6_confidence_thresholds` on a concrete
fixture. -/
theorem C6_confidence_thresholds_witness :
    ((simulateResult expQ dsHeuristic inputHeur24 planA).confidence =
        Confidence.High ↔
      25 ≤ (simulateResult expQ dsHeuristic inputHeur24 planA).evidenceCount) ∧
      ((simulateResult expQ dsHeuristic inputHeur24 planA).confidence =
          Confidence.Med ↔
        10 ≤ (simulateResult expQ dsHeuristic inputHeur24 planA).evidenceCount ∧
          (simulateResult expQ dsHeuristic inputHeur24 planA).evidenceCount ≤ 24) ∧
      ((simulateResult expQ dsHeuristic inputHeur24 planA).confidence =
          Confidence.Low ↔
        (simulateResult expQ dsHeuristic inputHeur24 planA).evidenceCount ≤ 9) :=
  C6_confidence_thresholds expQ dsHeuristic inputHeur24 _ rfl

/-! ## Claim C7 -/

/-- **C7.** For every valid `simulateChurn` input, the returned
`fatigueFactor` equals the sum of the applicable penalties (+0.20 for heavy
incentive, +0.10 for retries ≥ 7, +0.10 for retry window ≥ 21, +0.05 for
fallback enabled, +0.10 for max pause cycles ≥ 4) clamped to [0, 0.50] — in
particular it never exceeds 0.50 — and the returned `savedSubs` equals
`(savedSubsA + savedSubsB + savedSubsC) · (1 − fatigueFactor)`. -/
theorem C7_fatigue_factor_clamped (ds : Dataset) (input : ChurnSimulationInput)
    (plan : Plan) (r : ChurnSimulationResult)
    (hp : planFor ds input.planId = some plan)
    (hr : simulateChurn ds input = some r) :
    r.fatigueFactor = clamp (fatiguePenalty input) 0 0.50 ∧
      0 ≤ r.fatigueFactor ∧ r.fatigueFactor ≤ 0.50 ∧
      r.savedSubs =
        (savedSubsA ds input plan + savedSubsB ds input plan +
          savedSubsC ds input plan) * (1 - r.fatigueFactor) := by
  rw [simulateChurn_eq_some ds input plan hp] at hr
  obtain rfl := (Option.some.inj hr).symm
  exact ⟨rfl, le_clamp _ _ _, clamp_le _ _ _ (by norm_num), rfl⟩

/-- Closed instantiation of `C7_fatigue_factor_clamped` on a concrete
fixture. -/
theorem C7_fatigue_factor_clamped_witness :
    (simulateChurnResult dsChurn churnInputSurvey planA).fatigueFactor =
        clamp (fatiguePenalty churnInputSurvey) 0 0.50 ∧
      0 ≤ (simulateChurnResult dsChurn churnInputSurvey planA).fatigueFactor ∧
      (simulateChurnResult dsChurn churnInputSurvey planA).fatigueFactor ≤ 0.50 ∧
      (simulateChurnResult dsChurn churnInputSurvey planA).savedSubs =
        (savedSubsA dsChurn churnInputSurvey planA +
          savedSubsB dsChurn churnInputSurvey planA +
          savedSubsC dsChurn churnInputSurvey planA) *
          (1 - (simulateChurnResult dsChurn churnInputSurvey planA).fatigueFactor) :=
  C7_fatigue_factor_clamped dsChurn churnInputSurvey planA _ rfl rfl

/-! ## Claim C8 -/

/-- **C8.** Each of `simulate`, `findOptimalPrice` and `simulateChurn` fails
(returns `none`, modelling a thrown error) if and only if the supplied plan
id does not resolve in the dataset; and within the sweep of
`findOptimalPrice`, a failure of `simulate` at a single swept price point is
caught and that point skipped (the loop state is returned unchanged), so the
sweep continues instead of propagating the failure. -/
theorem C8_throws_iff_plan_missing :
    (∀ (exp : ℚ → ℚ) (ds : Dataset) (input : SimulationInput),
      simulate exp ds input = none ↔ planFor ds input.planId = none) ∧
      (∀ (exp : ℚ → ℚ) (ds : Dataset) (merchantId planId : String)
        (useGlobalBenchmarks : Bool) (priceRange : ℚ × ℚ) (steps : Nat),
        findOptimalPrice exp ds merchantId planId useGlobalBenchmarks
          priceRange steps = none ↔ planFor ds planId = none) ∧
      (∀ (ds : Dataset) (input : ChurnSimulationInput),
        simulateChurn ds input = none ↔ planFor ds input.planId = none) ∧
      (∀ (exp : ℚ → ℚ) (ds : Dataset) (merchantId planId : String)
        (useGlobalBenchmarks : Bool)
        (currentPrice minPrice priceStep minAllowedPrice maxARRLoss : ℚ)
        (st : SweepState) (i : Nat),
        simulate exp ds
          { merchantId := merchantId, planId := planId,
            newPriceMonthly := minPrice + priceStep * (i : ℚ),
            useGlobalBenchmarks := useGlobalBenchmarks } = none →
        sweepPoint exp ds merchantId planId useGlobalBenchmarks currentPrice
          minPrice priceStep minAllowedPrice maxARRLoss st i = st) := by
  refine ⟨?_, ?_, ?_, ?_⟩
  · intro exp ds input
    unfold simulate
    cases planFor ds input.planId <;> simp
  · intro exp ds merchantId planId useGlobalBenchmarks priceRange steps
    unfold findOptimalPrice
    cases planFor ds planId <;> simp
  · intro ds input
    unfold simulateChurn
    cases planFor ds input.planId <;> simp
  · intro exp ds merchantId planId useGlobalBenchmarks currentPrice minPrice
      priceStep minAllowedPrice maxARRLoss st i hsim
    simp only [sweepPoint]
    split
    · rfl
    · rw [hsim]

/-- Closed instantiation of the catch-and-skip part of
`C8_throws_iff_plan_missing`: a sweep point whose plan id does not resolve
leaves the loop state unchanged. -/
theorem C8_throws_iff_plan_missing_witness :
    sweepPoint expQ dsHeuristic "m-1" "missing" false 20 10 (3/5) 10 (-2400)
      sweepState0 3 = sweepState0 :=
  C8_throws_iff_plan_missing.2.2.2 expQ dsHeuristic "m-1" "missing" false 20 10
    (3/5) 10 (-2400) sweepState0 3 rfl

/-! ## Claim C10 -/

/-- **C10.** For every valid `simulateChurn` input whose `recoveredARR` is
strictly negative, the returned range bounds are inverted:
`rangeLow > rangeHigh`, because `rangeLow = recoveredARR · (1 − m)` and
`rangeHigh = recoveredARR · (1 + m)` for a positive confidence multiplier
`m`, with no reordering of the bounds. -/
theorem C10_negative_recovery_inverts_range (ds : Dataset)
    (input : ChurnSimulationInput) (r : ChurnSimulationResult)
    (hr : simulateChurn ds input = some r) (hneg : r.recoveredARR < 0) :
    r.rangeHigh < r.rangeLow := by
  obtain ⟨plan, hp, rfl⟩ := simulateChurn_some_elim ds input r hr
  have harr : recoveredARROf ds input plan < 0 := hneg
  have hm : 0 <
      rangeMultiplierOf (churnConfidenceOf (totalComparableEventsOf ds input)) := by
    cases churnConfidenceOf (totalComparableEventsOf ds input) <;>
      norm_num [rangeMultiplierOf]
  show recoveredARROf ds input plan *
      (1 + rangeMultiplierOf (churnConfidenceOf (totalComparableEventsOf ds input))) <
    recoveredARROf ds input plan *
      (1 - rangeMultiplierOf (churnConfidenceOf (totalComparableEventsOf ds input)))
  nlinarith [mul_pos hm (neg_pos.2 harr)]

/-- Closed instantiation of `C10_negative_recovery_inverts_range`: a survey
configuration that underperforms the "none" baseline recovers −120 ARR and
returns rangeLow = −60 above rangeHigh = −180. -/
theorem C10_negative_recovery_inverts_range_witness :
    (simulateChurnResult dsChurn churnInputSurvey planA).rangeHigh <
      (simulateChurnResult dsChurn churnInputSurvey planA).rangeLow :=
  C10_negative_recovery_inverts_range dsChurn churnInputSurvey _ rfl (by decide)

end PriceSim

namespace PriceSim

/-- A `List.foldl` preserves any invariant of its step function. -/
theorem foldl_invariant {α β : Type _} (P : β → Prop) (f : β → α → β)
    (l : List α) (init : β) (h0 : P init)
    (hstep : ∀ b a, P b → P (f b a)) : P (l.foldl f init) := by
  induction l generalizing init with
  | nil => exact h0
  | cons a as ih => exact ih (f init a) (hstep init a h0)

/-- One sweep iteration either leaves the state unchanged (price skipped or
simulation failed) or applies `sweepUpdate` at a test price that passed the
50% floor guard. -/
theorem sweepPoint_shape (exp : ℚ → ℚ) (ds : Dataset) (m pid : String)
    (ug : Bool) (c mn stp mal mloss : ℚ) (st : SweepState) (i : Nat) :
    sweepPoint exp ds m pid ug c mn stp mal mloss st i = st ∨
    ∃ result, simulate exp ds ⟨m, pid, mn + stp * (i : ℚ), ug⟩ = some result ∧
      mal ≤ mn + stp * (i : ℚ) ∧
      sweepPoint exp ds m pid ug c mn stp mal mloss st i =
        sweepUpdate c stp mal mloss st (mn + stp * (i : ℚ)) result := by
  unfold sweepPoint
  dsimp only
  split
  · exact Or.inl rfl
  · rename_i hguard
    push_neg at hguard
    cases hsim : simulate exp ds ⟨m, pid, mn + stp * (i : ℚ), ug⟩ with
    | none => exact Or.inl rfl
    | some result => exact Or.inr ⟨result, rfl, hguard.2, rfl⟩

/-- `sweepUpdate` always appends exactly the simulated point to `dataPoints`. -/
theorem sweepUpdate_dataPoints (c stp mal mloss : ℚ) (st : SweepState)
    (tp : ℚ) (result : SimulationResult) :
    (sweepUpdate c stp mal mloss st tp result).dataPoints =
      st.dataPoints ++
        [⟨tp, result.netARRDelta, result.expectedChurn90d⟩] := by
  unfold sweepUpdate
  dsimp only
  split_ifs <;> rfl

/-- The ARR-optimal price moves to the test price exactly when the new
`netARRDelta` strictly beats the tracked optimum. -/
theorem sweepUpdate_optimalPrice_eq (c stp mal mloss : ℚ) (st : SweepState)
    (tp : ℚ) (result : SimulationResult) :
    (sweepUpdate c stp mal mloss st tp result).optimalPrice =
      if result.netARRDelta > st.optimalARRImpact then tp
      else st.optimalPrice := by
  unfold sweepUpdate
  dsimp only
  simp only [apply_ite SweepState.optimalPrice, ite_self]

/-- The tracked optimal ARR impact after one update. -/
theorem sweepUpdate_optimalARRImpact_eq (c stp mal mloss : ℚ) (st : SweepState)
    (tp : ℚ) (result : SimulationResult) :
    (sweepUpdate c stp mal mloss st tp result).optimalARRImpact =
      if result.netARRDelta > st.optimalARRImpact then result.netARRDelta
      else st.optimalARRImpact := by
  unfold sweepUpdate
  dsimp only
  simp only [apply_ite SweepState.optimalARRImpact, ite_self]

/-- The constrained churn minimum after one update: it moves only when both
sweep constraints hold and the new churn is strictly smaller. -/
theorem sweepUpdate_optimalChurn90d_eq (c stp mal mloss : ℚ) (st : SweepState)
    (tp : ℚ) (result : SimulationResult) :
    (sweepUpdate c stp mal mloss st tp result).optimalChurn90d =
      if result.netARRDelta ≥ mloss ∧ tp ≥ mal then
        if result.expectedChurn90d < st.optimalChurn90d then
          result.expectedChurn90d
        else st.optimalChurn90d
      else st.optimalChurn90d := by
  unfold sweepUpdate
  dsimp only
  simp only [apply_ite SweepState.optimalChurn90d, ite_self]

/-- The constrained churn-optimal price after one update. -/
theorem sweepUpdate_optimalChurnPrice_eq (c stp mal mloss : ℚ) (st : SweepState)
    (tp : ℚ) (result : SimulationResult) :
    (sweepUpdate c stp mal mloss st tp result).optimalChurnPrice =
      if result.netARRDelta ≥ mloss ∧ tp ≥ mal then
        if result.expectedChurn90d < st.optimalChurn90d then tp
        else st.optimalChurnPrice
      else st.optimalChurnPrice := by
  unfold sweepUpdate
  dsimp only
  simp only [apply_ite SweepState.optimalChurnPrice, apply_ite SweepState.optimalChurn90d, ite_self]

/-- The ARR impact recorded for the constrained churn optimum after one
update. -/
theorem sweepUpdate_optimalChurnARRImpact_eq (c stp mal mloss : ℚ)
    (st : SweepState) (tp : ℚ) (result : SimulationResult) :
    (sweepUpdate c stp mal mloss st tp result).optimalChurnARRImpact =
      if result.netARRDelta ≥ mloss ∧ tp ≥ mal then
        if result.expectedChurn90d < st.optimalChurn90d then
          result.netARRDelta
        else st.optimalChurnARRImpact
      else st.optimalChurnARRImpact := by
  unfold sweepUpdate
  dsimp only
  simp only [apply_ite SweepState.optimalChurnARRImpact, apply_ite SweepState.optimalChurn90d, ite_self]

/-- The current-price snapshot fallback touches only the two current-price
fields: data points and all optimum trackers pass through unchanged. -/
theorem currentSnapshotStep_preserves (exp : ℚ → ℚ) (ds : Dataset)
    (m pid : String) (ug : Bool) (c : ℚ) (st : SweepState) :
    (currentSnapshotStep exp ds m pid ug c st).dataPoints = st.dataPoints ∧
      (currentSnapshotStep exp ds m pid ug c st).optimalPrice =
        st.optimalPrice ∧
      (currentSnapshotStep exp ds m pid ug c st).optimalARRImpact =
        st.optimalARRImpact ∧
      (currentSnapshotStep exp ds m pid ug c st).optimalChurnPrice =
        st.optimalChurnPrice ∧
      (currentSnapshotStep exp ds m pid ug c st).optimalChurn90d =
        st.optimalChurn90d ∧
      (currentSnapshotStep exp ds m pid ug c st).optimalChurnARRImpact =
        st.optimalChurnARRImpact := by
  unfold currentSnapshotStep
  split
  · split
    · exact ⟨rfl, rfl, rfl, rfl, rfl, rfl⟩
    · split
      · exact ⟨rfl, rfl, rfl, rfl, rfl, rfl⟩
      · exact ⟨rfl, rfl, rfl, rfl, rfl, rfl⟩
  · exact ⟨rfl, rfl, rfl, rfl, rfl, rfl⟩

/-- The churn fallback scan never changes the data points nor the ARR-optimal
tracker. -/
theorem churnFallbackStep_preserves (c b : ℚ) (st : SweepState) :
    (churnFallbackStep c b st).dataPoints = st.dataPoints ∧
      (churnFallbackStep c b st).optimalPrice = st.optimalPrice ∧
      (churnFallbackStep c b st).optimalARRImpact = st.optimalARRImpact := by
  unfold churnFallbackStep
  split
  · refine foldl_invariant
      (fun acc => acc.dataPoints = st.dataPoints ∧
        acc.optimalPrice = st.optimalPrice ∧
        acc.optimalARRImpact = st.optimalARRImpact)
      _ st.dataPoints st ⟨rfl, rfl, rfl⟩ ?_
    intro acc point hacc
    dsimp only
    split_ifs
    · exact hacc
    · exact hacc
    · exact hacc
  · exact ⟨rfl, rfl, rfl⟩

/-- The churn fallback scan is skipped as soon as the tracked churn minimum
has moved off the baseline. -/
theorem churnFallbackStep_skip (c b : ℚ) (st : SweepState)
    (h : st.optimalChurn90d ≠ b) : churnFallbackStep c b st = st := by
  unfold churnFallbackStep
  rw [if_neg]
  rintro ⟨h1, h2⟩
  exact h h2

/-- The churn fallback scan only ever installs prices at or above the 50%
floor, so the floor on `optimalChurnPrice` survives it. -/
theorem churnFallbackStep_price_floor (c b : ℚ) (st : SweepState)
    (hst : c * 0.5 ≤ st.optimalChurnPrice) :
    c * 0.5 ≤ (churnFallbackStep c b st).optimalChurnPrice := by
  unfold churnFallbackStep
  split
  · refine foldl_invariant (fun acc => c * 0.5 ≤ acc.optimalChurnPrice)
      _ st.dataPoints st hst ?_
    intro acc point hacc
    dsimp only
    split_ifs with hw hc
    · exact hw.1
    · exact hacc
    · exact hacc
  · exact hst

/-- **C9.** For every call of `findOptimalPrice` in which every successfully
simulated price point has `netARRDelta ≤ 0`, the result reports
`optimalPrice = plan.currentPriceMonthly` and `optimalARRImpact = 0`: the
ARR tracker starts at the sentinel pair `(currentPrice, 0)` and only updates
on a strictly positive improvement over it. -/
theorem C9_arr_sentinel (exp : ℚ → ℚ) (ds : Dataset) (m pid : String)
    (ug : Bool) (pr : ℚ × ℚ) (steps : Nat) (plan : Plan)
    (r : PriceOptimizationResult)
    (hp : planFor ds pid = some plan)
    (hr : findOptimalPrice exp ds m pid ug pr steps = some r)
    (hall : ∀ dp ∈ r.dataPoints, dp.arrImpact ≤ 0) :
    r.optimalPrice = plan.currentPriceMonthly ∧ r.optimalARRImpact = 0 := by
  rw [findOptimalPrice_eq_some exp ds m pid ug pr steps plan hp] at hr
  obtain rfl := (Option.some.inj hr).symm
  have hall2 : ∀ dp ∈ (sweepLoopResult exp ds m pid ug pr steps plan).dataPoints,
      dp.arrImpact ≤ 0 := by
    intro dp hdp
    exact hall dp ((mem_stableSortBy _ dp _).2 hdp)
  have hQfin :
      (fun st : SweepState =>
        (st.optimalPrice = plan.currentPriceMonthly ∧ st.optimalARRImpact = 0) ∨
          ∃ dp ∈ st.dataPoints, 0 < dp.arrImpact)
        ((List.range (steps + 1)).foldl
          (sweepPoint exp ds m pid ug plan.currentPriceMonthly
            (plan.currentPriceMonthly * (1 + pr.1))
            ((plan.currentPriceMonthly * (1 + pr.2) -
              plan.currentPriceMonthly * (1 + pr.1)) / (steps : ℚ))
            (plan.currentPriceMonthly * 0.5)
            (baselineARROf plan * (-0.10)))
          (sweepInit plan)) := by
    refine foldl_invariant
      (fun st : SweepState =>
        (st.optimalPrice = plan.currentPriceMonthly ∧ st.optimalARRImpact = 0) ∨
          ∃ dp ∈ st.dataPoints, 0 < dp.arrImpact) _ _ _ ?_ ?_
    · exact Or.inl ⟨rfl, rfl⟩
    intro st i hQst
    rcases sweepPoint_shape exp ds m pid ug plan.currentPriceMonthly _ _ _ _ st i
      with heq | ⟨result, hsim, hmal, heq⟩
    · rw [heq]; exact hQst
    · rw [heq]
      rcases hQst with ⟨q1, q2⟩ | ⟨dp, hmem, hposa⟩
      · by_cases ha : result.netARRDelta > st.optimalARRImpact
        · right
          refine ⟨⟨plan.currentPriceMonthly * (1 + pr.1) +
              (plan.currentPriceMonthly * (1 + pr.2) -
                plan.currentPriceMonthly * (1 + pr.1)) / (steps : ℚ) * (i : ℚ),
              result.netARRDelta, result.expectedChurn90d⟩, ?_, ?_⟩
          · rw [sweepUpdate_dataPoints]
            exact List.mem_append_right _ (List.mem_singleton.2 rfl)
          · rw [q2] at ha
            exact ha
        · left
          rw [sweepUpdate_optimalPrice_eq, sweepUpdate_optimalARRImpact_eq,
            if_neg ha, if_neg ha]
          exact ⟨q1, q2⟩
      · right
        refine ⟨dp, ?_, hposa⟩
        rw [sweepUpdate_dataPoints]
        exact List.mem_append_left _ hmem
  obtain ⟨pd1, pp1, pa1, pcp1, pc91, pca1⟩ :=
    currentSnapshotStep_preserves exp ds m pid ug plan.currentPriceMonthly
      ((List.range (steps + 1)).foldl
        (sweepPoint exp ds m pid ug plan.currentPriceMonthly
          (plan.currentPriceMonthly * (1 + pr.1))
          ((plan.currentPriceMonthly * (1 + pr.2) -
            plan.currentPriceMonthly * (1 + pr.1)) / (steps : ℚ))
          (plan.currentPriceMonthly * 0.5)
          (baselineARROf plan * (-0.10)))
        (sweepInit plan))
  obtain ⟨pd2, pp2, pa2⟩ :=
    churnFallbackStep_preserves plan.currentPriceMonthly plan.baselineChurn90d
      (currentSnapshotStep exp ds m pid ug plan.currentPriceMonthly
        ((List.range (steps + 1)).foldl
          (sweepPoint exp ds m pid ug plan.currentPriceMonthly
            (plan.currentPriceMonthly * (1 + pr.1))
            ((plan.currentPriceMonthly * (1 + pr.2) -
              plan.currentPriceMonthly * (1 + pr.1)) / (steps : ℚ))
            (plan.currentPriceMonthly * 0.5)
            (baselineARROf plan * (-0.10)))
          (sweepInit plan)))
  rcases hQfin with ⟨q1, q2⟩ | ⟨dp, hmem, hposa⟩
  · constructor
    · show (sweepLoopResult exp ds m pid ug pr steps plan).optimalPrice = _
      show (churnFallbackStep plan.currentPriceMonthly plan.baselineChurn90d
        (currentSnapshotStep exp ds m pid ug plan.currentPriceMonthly
          _)).optimalPrice = _
      rw [pp2, pp1]
      exact q1
    · show (sweepLoopResult exp ds m pid ug pr steps plan).optimalARRImpact = _
      show (churnFallbackStep plan.currentPriceMonthly plan.baselineChurn90d
        (currentSnapshotStep exp ds m pid ug plan.currentPriceMonthly
          _)).optimalARRImpact = _
      rw [pa2, pa1]
      exact q2
  · exfalso
    have hdpin : dp ∈ (sweepLoopResult exp ds m pid ug pr steps plan).dataPoints := by
      show dp ∈ (churnFallbackStep plan.currentPriceMonthly plan.baselineChurn90d
        (currentSnapshotStep exp ds m pid ug plan.currentPriceMonthly
          _)).dataPoints
      rw [pd2, pd1]
      exact hmem
    exact absurd hposa (not_lt.2 (hall2 dp hdpin))

/-- Closed instance of `C9_arr_sentinel`: with zero active subscribers every
swept `netARRDelta` is 0, and the sweep returns the sentinel pair. -/
theorem C9_arr_sentinel_witness :
    planFor dsZero "plan-a" = some planZero ∧
    findOptimalPrice expQ dsZero "m-1" "plan-a" false (-(1/2), 1) 30 =
      some (findOptimalPriceResult expQ dsZero "m-1" "plan-a" false (-(1/2), 1) 30 planZero) ∧
    (∀ dp ∈ (findOptimalPriceResult expQ dsZero "m-1" "plan-a" false (-(1/2), 1) 30
        planZero).dataPoints, dp.arrImpact ≤ 0) ∧
    (findOptimalPriceResult expQ dsZero "m-1" "plan-a" false (-(1/2), 1) 30
        planZero).optimalPrice = planZero.currentPriceMonthly ∧
    (findOptimalPriceResult expQ dsZero "m-1" "plan-a" false (-(1/2), 1) 30
        planZero).optimalARRImpact = 0 := by
  have hd : ∀ dp ∈ (findOptimalPriceResult expQ dsZero "m-1" "plan-a" false (-(1/2), 1) 30
      planZero).dataPoints, dp.arrImpact ≤ 0 := by decide
  exact ⟨rfl, rfl, hd,
    C9_arr_sentinel expQ dsZero "m-1" "plan-a" false (-(1/2), 1) 30 planZero _ rfl rfl hd⟩

/-- **C4 (amended).** Every price returned by `findOptimalPrice` — each
`dataPoints` entry, `optimalPrice` and `optimalChurnPrice` — is at least
0.5× the plan's current monthly price; and `optimalChurnARRImpact` is no
worse than −10% of baseline ARR **unless** no swept point met both the ARR
and price-floor constraints while also strictly improving on the baseline
churn (the code's fallback fires whenever its constrained tracker never
moved, not merely when no point satisfied the two constraints). -/
theorem C4_price_floor_and_churn_arr (exp : ℚ → ℚ) (ds : Dataset)
    (m pid : String) (ug : Bool) (pr : ℚ × ℚ) (steps : Nat) (plan : Plan)
    (r : PriceOptimizationResult)
    (hp : planFor ds pid = some plan)
    (hpos : 0 < plan.currentPriceMonthly)
    (hr : findOptimalPrice exp ds m pid ug pr steps = some r) :
    ((∀ dp ∈ r.dataPoints, plan.currentPriceMonthly * 0.5 ≤ dp.price) ∧
      plan.currentPriceMonthly * 0.5 ≤ r.optimalPrice ∧
      plan.currentPriceMonthly * 0.5 ≤ r.optimalChurnPrice) ∧
    (baselineARROf plan * (-0.10) ≤ r.optimalChurnARRImpact ∨
      ∀ dp ∈ r.dataPoints,
        ¬(baselineARROf plan * (-0.10) ≤ dp.arrImpact ∧
          plan.currentPriceMonthly * 0.5 ≤ dp.price ∧
          dp.expectedChurn90d < plan.baselineChurn90d)) := by
  rw [findOptimalPrice_eq_some exp ds m pid ug pr steps plan hp] at hr
  obtain rfl := (Option.some.inj hr).symm
  have hc2 : plan.currentPriceMonthly * 0.5 ≤ plan.currentPriceMonthly := by
    nlinarith
  have hPfin :
      (fun st : SweepState =>
        plan.currentPriceMonthly * 0.5 ≤ st.optimalPrice ∧
        plan.currentPriceMonthly * 0.5 ≤ st.optimalChurnPrice ∧
        ∀ dp ∈ st.dataPoints, plan.currentPriceMonthly * 0.5 ≤ dp.price)
      ((List.range (steps + 1)).foldl
        (sweepPoint exp ds m pid ug plan.currentPriceMonthly
          (plan.currentPriceMonthly * (1 + pr.1))
          ((plan.currentPriceMonthly * (1 + pr.2) -
            plan.currentPriceMonthly * (1 + pr.1)) / (steps : ℚ))
          (plan.currentPriceMonthly * 0.5)
          (baselineARROf plan * (-0.10)))
        (sweepInit plan)) := by
    refine foldl_invariant
      (fun st : SweepState =>
        plan.currentPriceMonthly * 0.5 ≤ st.optimalPrice ∧
        plan.currentPriceMonthly * 0.5 ≤ st.optimalChurnPrice ∧
        ∀ dp ∈ st.dataPoints, plan.currentPriceMonthly * 0.5 ≤ dp.price)
      _ _ _ ?_ ?_
    · exact ⟨hc2, hc2, fun dp h => nomatch h⟩
    intro st i hP
    rcases sweepPoint_shape exp ds m pid ug plan.currentPriceMonthly _ _ _ _ st i
      with heq | ⟨result, hsim, hmal, heq⟩
    · rw [heq]; exact hP
    · rw [heq]
      obtain ⟨h1, h2, h3⟩ := hP
      refine ⟨?_, ?_, ?_⟩
      · rw [sweepUpdate_optimalPrice_eq]
        split
        · exact hmal
        · exact h1
      · rw [sweepUpdate_optimalChurnPrice_eq]
        split
        · split
          · exact hmal
          · exact h2
        · exact h2
      · intro dp hdp
        rw [sweepUpdate_dataPoints] at hdp
        rcases List.mem_append.1 hdp with hdp | hdp
        · exact h3 dp hdp
        · obtain rfl := List.mem_singleton.1 hdp
          exact hmal
  have hQfin :
      (fun st : SweepState =>
        (st.optimalChurnPrice = plan.currentPriceMonthly ∧
          st.optimalChurn90d = plan.baselineChurn90d ∧
          ∀ dp ∈ st.dataPoints,
            ¬(baselineARROf plan * (-0.10) ≤ dp.arrImpact ∧
              plan.currentPriceMonthly * 0.5 ≤ dp.price ∧
              dp.expectedChurn90d < plan.baselineChurn90d)) ∨
        (baselineARROf plan * (-0.10) ≤ st.optimalChurnARRImpact ∧
          st.optimalChurn90d < plan.baselineChurn90d))
      ((List.range (steps + 1)).foldl
        (sweepPoint exp ds m pid ug plan.currentPriceMonthly
          (plan.currentPriceMonthly * (1 + pr.1))
          ((plan.currentPriceMonthly * (1 + pr.2) -
            plan.currentPriceMonthly * (1 + pr.1)) / (steps : ℚ))
          (plan.currentPriceMonthly * 0.5)
          (baselineARROf plan * (-0.10)))
        (sweepInit plan)) := by
    refine foldl_invariant
      (fun st : SweepState =>
        (st.optimalChurnPrice = plan.currentPriceMonthly ∧
          st.optimalChurn90d = plan.baselineChurn90d ∧
          ∀ dp ∈ st.dataPoints,
            ¬(baselineARROf plan * (-0.10) ≤ dp.arrImpact ∧
              plan.currentPriceMonthly * 0.5 ≤ dp.price ∧
              dp.expectedChurn90d < plan.baselineChurn90d)) ∨
        (baselineARROf plan * (-0.10) ≤ st.optimalChurnARRImpact ∧
          st.optimalChurn90d < plan.baselineChurn90d))
      _ _ _ ?_ ?_
    · exact Or.inl ⟨rfl, rfl, fun dp h => nomatch h⟩
    intro st i hQ
    rcases sweepPoint_shape exp ds m pid ug plan.currentPriceMonthly _ _ _ _ st i
      with heq | ⟨result, hsim, hmal, heq⟩
    · rw [heq]; exact hQ
    · rw [heq]
      clear hsim
      revert hmal
      generalize plan.currentPriceMonthly * (1 + pr.1) +
        (plan.currentPriceMonthly * (1 + pr.2) -
          plan.currentPriceMonthly * (1 + pr.1)) / (steps : ℚ) * (i : ℚ) = tp
      intro hmal
      rcases hQ with ⟨q1, q2, q3⟩ | ⟨q1, q2⟩
      · by_cases hcon : result.netARRDelta ≥ baselineARROf plan * (-0.10) ∧
          tp ≥ plan.currentPriceMonthly * 0.5
        · by_cases hch : result.expectedChurn90d < st.optimalChurn90d
          · right
            constructor
            · rw [sweepUpdate_optimalChurnARRImpact_eq, if_pos hcon, if_pos hch]
              exact hcon.1
            · rw [sweepUpdate_optimalChurn90d_eq, if_pos hcon, if_pos hch]
              rw [q2] at hch
              exact hch
          · left
            refine ⟨?_, ?_, ?_⟩
            · rw [sweepUpdate_optimalChurnPrice_eq, if_pos hcon, if_neg hch]
              exact q1
            · rw [sweepUpdate_optimalChurn90d_eq, if_pos hcon, if_neg hch]
              exact q2
            · intro dp hdp
              rw [sweepUpdate_dataPoints] at hdp
              rcases List.mem_append.1 hdp with hdp | hdp
              · exact q3 dp hdp
              · obtain rfl := List.mem_singleton.1 hdp
                rintro ⟨ha, hb, hcc⟩
                rw [q2] at hch
                exact hch hcc
        · left
          refine ⟨?_, ?_, ?_⟩
          · rw [sweepUpdate_optimalChurnPrice_eq, if_neg hcon]
            exact q1
          · rw [sweepUpdate_optimalChurn90d_eq, if_neg hcon]
            exact q2
          · intro dp hdp
            rw [sweepUpdate_dataPoints] at hdp
            rcases List.mem_append.1 hdp with hdp | hdp
            · exact q3 dp hdp
            · obtain rfl := List.mem_singleton.1 hdp
              rintro ⟨ha, hb, hcc⟩
              exact hcon ⟨ha, hmal⟩
      · by_cases hcon : result.netARRDelta ≥ baselineARROf plan * (-0.10) ∧
          tp ≥ plan.currentPriceMonthly * 0.5
        · by_cases hch : result.expectedChurn90d < st.optimalChurn90d
          · right
            constructor
            · rw [sweepUpdate_optimalChurnARRImpact_eq, if_pos hcon, if_pos hch]
              exact hcon.1
            · rw [sweepUpdate_optimalChurn90d_eq, if_pos hcon, if_pos hch]
              exact lt_trans hch q2
          · right
            constructor
            · rw [sweepUpdate_optimalChurnARRImpact_eq, if_pos hcon, if_neg hch]
              exact q1
            · rw [sweepUpdate_optimalChurn90d_eq, if_pos hcon, if_neg hch]
              exact q2
        · right
          constructor
          · rw [sweepUpdate_optimalChurnARRImpact_eq, if_neg hcon]
            exact q1
          · rw [sweepUpdate_optimalChurn90d_eq, if_neg hcon]
            exact q2
  obtain ⟨pd1, pp1, pa1, pcp1, pc91, pca1⟩ :=
    currentSnapshotStep_preserves exp ds m pid ug plan.currentPriceMonthly
      ((List.range (steps + 1)).foldl
        (sweepPoint exp ds m pid ug plan.currentPriceMonthly
          (plan.currentPriceMonthly * (1 + pr.1))
          ((plan.currentPriceMonthly * (1 + pr.2) -
            plan.currentPriceMonthly * (1 + pr.1)) / (steps : ℚ))
          (plan.currentPriceMonthly * 0.5)
          (baselineARROf plan * (-0.10)))
        (sweepInit plan))
  obtain ⟨fd1, fp1, fa1⟩ :=
    churnFallbackStep_preserves plan.currentPriceMonthly plan.baselineChurn90d
      (currentSnapshotStep exp ds m pid ug plan.currentPriceMonthly
        ((List.range (steps + 1)).foldl
          (sweepPoint exp ds m pid ug plan.currentPriceMonthly
            (plan.currentPriceMonthly * (1 + pr.1))
            ((plan.currentPriceMonthly * (1 + pr.2) -
              plan.currentPriceMonthly * (1 + pr.1)) / (steps : ℚ))
            (plan.currentPriceMonthly * 0.5)
            (baselineARROf plan * (-0.10)))
          (sweepInit plan)))
  obtain ⟨P1, P2, P3⟩ := hPfin
  have hdEq : (sweepLoopResult exp ds m pid ug pr steps plan).dataPoints =
      ((List.range (steps + 1)).foldl
        (sweepPoint exp ds m pid ug plan.currentPriceMonthly
          (plan.currentPriceMonthly * (1 + pr.1))
          ((plan.currentPriceMonthly * (1 + pr.2) -
            plan.currentPriceMonthly * (1 + pr.1)) / (steps : ℚ))
          (plan.currentPriceMonthly * 0.5)
          (baselineARROf plan * (-0.10)))
        (sweepInit plan)).dataPoints := by
    show (churnFallbackStep plan.currentPriceMonthly plan.baselineChurn90d
      (currentSnapshotStep exp ds m pid ug plan.currentPriceMonthly
        _)).dataPoints = _
    rw [fd1, pd1]
  refine ⟨⟨?_, ?_, ?_⟩, ?_⟩
  · intro dp hdp
    have hdp2 : dp ∈ (sweepLoopResult exp ds m pid ug pr steps plan).dataPoints :=
      (mem_stableSortBy _ dp _).1 hdp
    rw [hdEq] at hdp2
    exact P3 dp hdp2
  · show plan.currentPriceMonthly * 0.5 ≤
      (sweepLoopResult exp ds m pid ug pr steps plan).optimalPrice
    show plan.currentPriceMonthly * 0.5 ≤
      (churnFallbackStep plan.currentPriceMonthly plan.baselineChurn90d
        (currentSnapshotStep exp ds m pid ug plan.currentPriceMonthly
          _)).optimalPrice
    rw [fp1, pp1]
    exact P1
  · show plan.currentPriceMonthly * 0.5 ≤
      (sweepLoopResult exp ds m pid ug pr steps plan).optimalChurnPrice
    show plan.currentPriceMonthly * 0.5 ≤
      (churnFallbackStep plan.currentPriceMonthly plan.baselineChurn90d
        (currentSnapshotStep exp ds m pid ug plan.currentPriceMonthly
          _)).optimalChurnPrice
    apply churnFallbackStep_price_floor
    rw [pcp1]
    exact P2
  · rcases hQfin with ⟨q1, q2, q3⟩ | ⟨q1, q2⟩
    · right
      intro dp hdp
      have hdp2 : dp ∈ (sweepLoopResult exp ds m pid ug pr steps plan).dataPoints :=
        (mem_stableSortBy _ dp _).1 hdp
      rw [hdEq] at hdp2
      exact q3 dp hdp2
    · left
      have hskip : churnFallbackStep plan.currentPriceMonthly plan.baselineChurn90d
          (currentSnapshotStep exp ds m pid ug plan.currentPriceMonthly
            ((List.range (steps + 1)).foldl
              (sweepPoint exp ds m pid ug plan.currentPriceMonthly
                (plan.currentPriceMonthly * (1 + pr.1))
                ((plan.currentPriceMonthly * (1 + pr.2) -
                  plan.currentPriceMonthly * (1 + pr.1)) / (steps : ℚ))
                (plan.currentPriceMonthly * 0.5)
                (baselineARROf plan * (-0.10)))
              (sweepInit plan))) =
          currentSnapshotStep exp ds m pid ug plan.currentPriceMonthly
            ((List.range (steps + 1)).foldl
              (sweepPoint exp ds m pid ug plan.currentPriceMonthly
                (plan.currentPriceMonthly * (1 + pr.1))
                ((plan.currentPriceMonthly * (1 + pr.2) -
                  plan.currentPriceMonthly * (1 + pr.1)) / (steps : ℚ))
                (plan.currentPriceMonthly * 0.5)
                (baselineARROf plan * (-0.10)))
              (sweepInit plan)) := by
        apply churnFallbackStep_skip
        rw [pc91]
        exact ne_of_lt q2
      show baselineARROf plan * (-0.10) ≤
        (sweepLoopResult exp ds m pid ug pr steps plan).optimalChurnARRImpact
      show baselineARROf plan * (-0.10) ≤
        (churnFallbackStep plan.currentPriceMonthly plan.baselineChurn90d
          (currentSnapshotStep exp ds m pid ug plan.currentPriceMonthly
            _)).optimalChurnARRImpact
      rw [hskip, pca1]
      exact q1

/-- Closed instance of `C4_price_floor_and_churn_arr` at the source defaults
`priceRange = (−0.5, 1)`, `steps = 50`. -/
theorem C4_price_floor_and_churn_arr_witness :
    planFor dsHeuristic "plan-a" = some planA ∧
    (0 : ℚ) < planA.currentPriceMonthly ∧
    (((∀ dp ∈ (findOptimalPriceResult expQ dsHeuristic "m-1" "plan-a" false
          (-(1/2), 1) 50 planA).dataPoints,
        planA.currentPriceMonthly * 0.5 ≤ dp.price) ∧
      planA.currentPriceMonthly * 0.5 ≤ (findOptimalPriceResult expQ dsHeuristic
        "m-1" "plan-a" false (-(1/2), 1) 50 planA).optimalPrice ∧
      planA.currentPriceMonthly * 0.5 ≤ (findOptimalPriceResult expQ dsHeuristic
        "m-1" "plan-a" false (-(1/2), 1) 50 planA).optimalChurnPrice) ∧
    (baselineARROf planA * (-0.10) ≤ (findOptimalPriceResult expQ dsHeuristic
        "m-1" "plan-a" false (-(1/2), 1) 50 planA).optimalChurnARRImpact ∨
      ∀ dp ∈ (findOptimalPriceResult expQ dsHeuristic "m-1" "plan-a" false
          (-(1/2), 1) 50 planA).dataPoints,
        ¬(baselineARROf planA * (-0.10) ≤ dp.arrImpact ∧
          planA.currentPriceMonthly * 0.5 ≤ dp.price ∧
          dp.expectedChurn90d < planA.baselineChurn90d))) :=
  ⟨rfl, by decide,
    C4_price_floor_and_churn_arr expQ dsHeuristic "m-1" "plan-a" false
      (-(1/2), 1) 50 planA _ rfl (by decide) rfl⟩

/-- **C4** as stated is refuted: on `dsSweep` at the default range some swept
point satisfies both the ARR and price-floor constraints, yet the returned
`optimalChurnARRImpact` is strictly worse than −10% of baseline ARR — the
fallback fired because no constrained point strictly beat the baseline
churn, a weaker trigger than the claim's \"no point satisfied both
constraints\". -/
theorem C4_counterexample :
    findOptimalPrice expQ dsSweep "m-1" "plan-a" false (-(1/2), 1) 50 =
      some (findOptimalPriceResult expQ dsSweep "m-1" "plan-a" false (-(1/2), 1)
        50 planSweep) ∧
    (∃ dp ∈ (findOptimalPriceResult expQ dsSweep "m-1" "plan-a" false (-(1/2), 1)
        50 planSweep).dataPoints,
      baselineARROf planSweep * (-0.10) ≤ dp.arrImpact ∧
      planSweep.currentPriceMonthly * 0.5 ≤ dp.price) ∧
    (findOptimalPriceResult expQ dsSweep "m-1" "plan-a" false (-(1/2), 1)
        50 planSweep).optimalChurnARRImpact < baselineARROf planSweep * (-0.10) :=
  ⟨rfl, by decide, by decide⟩

end PriceSim
